import Mathlib

/-!
# FAQ-Bot: matching and disambiguation engine

A shallow embedding of `script.js` (browser entry point) of the FAQ-Bot repository:
`SimpleSimilarity`, `FAQBot` and `ChatInterface`; and of the decision of the
command-line entry point (`retriever.js`, `answerFormatter.js`, `bot.js`), in the
namespace `Cli`.

Modelling conventions.

* JavaScript strings are Lean strings (sequences of code points); the string
  primitives used by the program (`toLowerCase`, `trim`, `includes`, `split(/\s+/)`,
  `replace(/[^\w\s]/g, '')`, `parseInt`) are defined below on character lists.
  `toLowerCase` is the default case conversion of Unicode (simple lowercase mappings,
  the unconditional special casing of U+0130, and Final_Sigma), with the character
  data of Unicode 14.0.
* Scores are rationals. Every finite double is a rational, and the ratios of small
  integer counts that the lexical strategies compute compare with the thresholds
  0.2, 0.3, 0.4, 0.7 exactly as the doubles do. `Math.sqrt` enters as a parameter.
* The inference pipelines (`questionRephraser`, `answerFinder`) are external; they are
  fields of the bot that may be absent (`none`) and may throw (`Except.error`).
* Exceptions are values of `Except Js.JsError`: a pipeline call and the read of a
  property of an `undefined` or `null` value may throw; `try`/`catch` is a match on
  the outcome.
* The DOM is reduced to the chat log: the sequence of emitted messages.
-/

/-! ## JavaScript string primitives -/

namespace Js

/-- The characters matched by the regular expression class `\s`
(WhiteSpace and LineTerminator of ECMAScript); `trim` strips the same set. -/
def isWhiteSpace (c : Char) : Bool :=
  let n := c.toNat
  n == 0x09 || n == 0x0A || n == 0x0B || n == 0x0C || n == 0x0D || n == 0x20 ||
  n == 0xA0 || n == 0x1680 || (0x2000 ≤ n && n ≤ 0x200A) ||
  n == 0x2028 || n == 0x2029 || n == 0x202F || n == 0x205F || n == 0x3000 || n == 0xFEFF

/-- The characters matched by the regular expression class `\w`: `[A-Za-z0-9_]`. -/
def isWordChar (c : Char) : Bool :=
  let n := c.toNat
  (0x41 ≤ n && n ≤ 0x5A) || (0x61 ≤ n && n ≤ 0x7A) || (0x30 ≤ n && n ≤ 0x39) || n == 0x5F

/-- The characters matched by the regular expression class `\d`: `[0-9]`. -/
def isDigit (c : Char) : Bool :=
  let n := c.toNat
  0x30 ≤ n && n ≤ 0x39

/-- The simple lowercase mappings of the Unicode Character Database (version 14.0)
outside ASCII, as rules `(first, last, step, image)`: a code point `n` with
`first ≤ n ≤ last` and `n - first` a multiple of `step` maps to `image + (n - first)`.
The rules are sorted by `first`. -/
def lowercaseRules : List (Nat × Nat × Nat × Nat) :=
  [
    (0xC0, 0xD6, 1, 0xE0), (0xD8, 0xDE, 1, 0xF8), (0x100, 0x12E, 2, 0x101),
    (0x132, 0x136, 2, 0x133), (0x139, 0x147, 2, 0x13A), (0x14A, 0x176, 2, 0x14B),
    (0x178, 0x178, 1, 0xFF), (0x179, 0x17D, 2, 0x17A), (0x181, 0x181, 1, 0x253),
    (0x182, 0x184, 2, 0x183), (0x186, 0x186, 1, 0x254), (0x187, 0x187, 1, 0x188),
    (0x189, 0x18A, 1, 0x256), (0x18B, 0x18B, 1, 0x18C), (0x18E, 0x18E, 1, 0x1DD),
    (0x18F, 0x18F, 1, 0x259), (0x190, 0x190, 1, 0x25B), (0x191, 0x191, 1, 0x192),
    (0x193, 0x193, 1, 0x260), (0x194, 0x194, 1, 0x263), (0x196, 0x196, 1, 0x269),
    (0x197, 0x197, 1, 0x268), (0x198, 0x198, 1, 0x199), (0x19C, 0x19C, 1, 0x26F),
    (0x19D, 0x19D, 1, 0x272), (0x19F, 0x19F, 1, 0x275), (0x1A0, 0x1A4, 2, 0x1A1),
    (0x1A6, 0x1A6, 1, 0x280), (0x1A7, 0x1A7, 1, 0x1A8), (0x1A9, 0x1A9, 1, 0x283),
    (0x1AC, 0x1AC, 1, 0x1AD), (0x1AE, 0x1AE, 1, 0x288), (0x1AF, 0x1AF, 1, 0x1B0),
    (0x1B1, 0x1B2, 1, 0x28A), (0x1B3, 0x1B5, 2, 0x1B4), (0x1B7, 0x1B7, 1, 0x292),
    (0x1B8, 0x1B8, 1, 0x1B9), (0x1BC, 0x1BC, 1, 0x1BD), (0x1C4, 0x1C4, 1, 0x1C6),
    (0x1C5, 0x1C5, 1, 0x1C6), (0x1C7, 0x1C7, 1, 0x1C9), (0x1C8, 0x1C8, 1, 0x1C9),
    (0x1CA, 0x1CA, 1, 0x1CC), (0x1CB, 0x1DB, 2, 0x1CC), (0x1DE, 0x1EE, 2, 0x1DF),
    (0x1F1, 0x1F1, 1, 0x1F3), (0x1F2, 0x1F4, 2, 0x1F3), (0x1F6, 0x1F6, 1, 0x195),
    (0x1F7, 0x1F7, 1, 0x1BF), (0x1F8, 0x21E, 2, 0x1F9), (0x220, 0x220, 1, 0x19E),
    (0x222, 0x232, 2, 0x223), (0x23A, 0x23A, 1, 0x2C65), (0x23B, 0x23B, 1, 0x23C),
    (0x23D, 0x23D, 1, 0x19A), (0x23E, 0x23E, 1, 0x2C66), (0x241, 0x241, 1, 0x242),
    (0x243, 0x243, 1, 0x180), (0x244, 0x244, 1, 0x289), (0x245, 0x245, 1, 0x28C),
    (0x246, 0x24E, 2, 0x247), (0x370, 0x372, 2, 0x371), (0x376, 0x376, 1, 0x377),
    (0x37F, 0x37F, 1, 0x3F3), (0x386, 0x386, 1, 0x3AC), (0x388, 0x38A, 1, 0x3AD),
    (0x38C, 0x38C, 1, 0x3CC), (0x38E, 0x38F, 1, 0x3CD), (0x391, 0x3A1, 1, 0x3B1),
    (0x3A4, 0x3AB, 1, 0x3C4), (0x3CF, 0x3CF, 1, 0x3D7), (0x3D8, 0x3EE, 2, 0x3D9),
    (0x3F4, 0x3F4, 1, 0x3B8), (0x3F7, 0x3F7, 1, 0x3F8), (0x3F9, 0x3F9, 1, 0x3F2),
    (0x3FA, 0x3FA, 1, 0x3FB), (0x3FD, 0x3FF, 1, 0x37B), (0x400, 0x40F, 1, 0x450),
    (0x410, 0x42F, 1, 0x430), (0x460, 0x480, 2, 0x461), (0x48A, 0x4BE, 2, 0x48B),
    (0x4C0, 0x4C0, 1, 0x4CF), (0x4C1, 0x4CD, 2, 0x4C2), (0x4D0, 0x52E, 2, 0x4D1),
    (0x531, 0x556, 1, 0x561), (0x10A0, 0x10C5, 1, 0x2D00), (0x10C7, 0x10C7, 1, 0x2D27),
    (0x10CD, 0x10CD, 1, 0x2D2D), (0x13A0, 0x13EF, 1, 0xAB70), (0x13F0, 0x13F5, 1, 0x13F8),
    (0x1C90, 0x1CBA, 1, 0x10D0), (0x1CBD, 0x1CBF, 1, 0x10FD), (0x1E00, 0x1E94, 2, 0x1E01),
    (0x1E9E, 0x1E9E, 1, 0xDF), (0x1EA0, 0x1EFE, 2, 0x1EA1), (0x1F08, 0x1F0F, 1, 0x1F00),
    (0x1F18, 0x1F1D, 1, 0x1F10), (0x1F28, 0x1F2F, 1, 0x1F20), (0x1F38, 0x1F3F, 1, 0x1F30),
    (0x1F48, 0x1F4D, 1, 0x1F40), (0x1F59, 0x1F5F, 2, 0x1F51), (0x1F68, 0x1F6F, 1, 0x1F60),
    (0x1F88, 0x1F8F, 1, 0x1F80), (0x1F98, 0x1F9F, 1, 0x1F90), (0x1FA8, 0x1FAF, 1, 0x1FA0),
    (0x1FB8, 0x1FB9, 1, 0x1FB0), (0x1FBA, 0x1FBB, 1, 0x1F70), (0x1FBC, 0x1FBC, 1, 0x1FB3),
    (0x1FC8, 0x1FCB, 1, 0x1F72), (0x1FCC, 0x1FCC, 1, 0x1FC3), (0x1FD8, 0x1FD9, 1, 0x1FD0),
    (0x1FDA, 0x1FDB, 1, 0x1F76), (0x1FE8, 0x1FE9, 1, 0x1FE0), (0x1FEA, 0x1FEB, 1, 0x1F7A),
    (0x1FEC, 0x1FEC, 1, 0x1FE5), (0x1FF8, 0x1FF9, 1, 0x1F78), (0x1FFA, 0x1FFB, 1, 0x1F7C),
    (0x1FFC, 0x1FFC, 1, 0x1FF3), (0x2126, 0x2126, 1, 0x3C9), (0x212A, 0x212A, 1, 0x6B),
    (0x212B, 0x212B, 1, 0xE5), (0x2132, 0x2132, 1, 0x214E), (0x2160, 0x216F, 1, 0x2170),
    (0x2183, 0x2183, 1, 0x2184), (0x24B6, 0x24CF, 1, 0x24D0), (0x2C00, 0x2C2F, 1, 0x2C30),
    (0x2C60, 0x2C60, 1, 0x2C61), (0x2C62, 0x2C62, 1, 0x26B), (0x2C63, 0x2C63, 1, 0x1D7D),
    (0x2C64, 0x2C64, 1, 0x27D), (0x2C67, 0x2C6B, 2, 0x2C68), (0x2C6D, 0x2C6D, 1, 0x251),
    (0x2C6E, 0x2C6E, 1, 0x271), (0x2C6F, 0x2C6F, 1, 0x250), (0x2C70, 0x2C70, 1, 0x252),
    (0x2C72, 0x2C72, 1, 0x2C73), (0x2C75, 0x2C75, 1, 0x2C76), (0x2C7E, 0x2C7F, 1, 0x23F),
    (0x2C80, 0x2CE2, 2, 0x2C81), (0x2CEB, 0x2CED, 2, 0x2CEC), (0x2CF2, 0x2CF2, 1, 0x2CF3),
    (0xA640, 0xA66C, 2, 0xA641), (0xA680, 0xA69A, 2, 0xA681), (0xA722, 0xA72E, 2, 0xA723),
    (0xA732, 0xA76E, 2, 0xA733), (0xA779, 0xA77B, 2, 0xA77A), (0xA77D, 0xA77D, 1, 0x1D79),
    (0xA77E, 0xA786, 2, 0xA77F), (0xA78B, 0xA78B, 1, 0xA78C), (0xA78D, 0xA78D, 1, 0x265),
    (0xA790, 0xA792, 2, 0xA791), (0xA796, 0xA7A8, 2, 0xA797), (0xA7AA, 0xA7AA, 1, 0x266),
    (0xA7AB, 0xA7AB, 1, 0x25C), (0xA7AC, 0xA7AC, 1, 0x261), (0xA7AD, 0xA7AD, 1, 0x26C),
    (0xA7AE, 0xA7AE, 1, 0x26A), (0xA7B0, 0xA7B0, 1, 0x29E), (0xA7B1, 0xA7B1, 1, 0x287),
    (0xA7B2, 0xA7B2, 1, 0x29D), (0xA7B3, 0xA7B3, 1, 0xAB53), (0xA7B4, 0xA7C2, 2, 0xA7B5),
    (0xA7C4, 0xA7C4, 1, 0xA794), (0xA7C5, 0xA7C5, 1, 0x282), (0xA7C6, 0xA7C6, 1, 0x1D8E),
    (0xA7C7, 0xA7C9, 2, 0xA7C8), (0xA7D0, 0xA7D0, 1, 0xA7D1), (0xA7D6, 0xA7D8, 2, 0xA7D7),
    (0xA7F5, 0xA7F5, 1, 0xA7F6), (0xFF21, 0xFF3A, 1, 0xFF41), (0x10400, 0x10427, 1, 0x10428),
    (0x104B0, 0x104D3, 1, 0x104D8), (0x10570, 0x10594, 2, 0x10597),
    (0x10571, 0x10579, 2, 0x10598), (0x1057D, 0x10589, 2, 0x105A4),
    (0x1058D, 0x10591, 2, 0x105B4), (0x10595, 0x10595, 1, 0x105BC),
    (0x10C80, 0x10CB2, 1, 0x10CC0), (0x118A0, 0x118BF, 1, 0x118C0),
    (0x16E40, 0x16E5F, 1, 0x16E60), (0x1E900, 0x1E921, 1, 0x1E922) ]

/-- The code points with the property Case_Ignorable (Unicode 14.0), as sorted
ranges `(first, last)`. -/
def caseIgnorableRanges : List (Nat × Nat) :=
  [
    (0x27, 0x27), (0x2E, 0x2E), (0x3A, 0x3A), (0x5E, 0x5E), (0x60, 0x60), (0xA8, 0xA8),
    (0xAD, 0xAD), (0xAF, 0xAF), (0xB4, 0xB4), (0xB7, 0xB8), (0x2B0, 0x36F), (0x374, 0x375),
    (0x37A, 0x37A), (0x384, 0x385), (0x387, 0x387), (0x483, 0x489), (0x559, 0x559),
    (0x55F, 0x55F), (0x591, 0x5BD), (0x5BF, 0x5BF), (0x5C1, 0x5C2), (0x5C4, 0x5C5),
    (0x5C7, 0x5C7), (0x5F4, 0x5F4), (0x600, 0x605), (0x610, 0x61A), (0x61C, 0x61C),
    (0x640, 0x640), (0x64B, 0x65F), (0x670, 0x670), (0x6D6, 0x6DD), (0x6DF, 0x6E8),
    (0x6EA, 0x6ED), (0x70F, 0x70F), (0x711, 0x711), (0x730, 0x74A), (0x7A6, 0x7B0),
    (0x7EB, 0x7F5), (0x7FA, 0x7FA), (0x7FD, 0x7FD), (0x816, 0x82D), (0x859, 0x85B),
    (0x888, 0x888), (0x890, 0x891), (0x898, 0x89F), (0x8C9, 0x902), (0x93A, 0x93A),
    (0x93C, 0x93C), (0x941, 0x948), (0x94D, 0x94D), (0x951, 0x957), (0x962, 0x963),
    (0x971, 0x971), (0x981, 0x981), (0x9BC, 0x9BC), (0x9C1, 0x9C4), (0x9CD, 0x9CD),
    (0x9E2, 0x9E3), (0x9FE, 0x9FE), (0xA01, 0xA02), (0xA3C, 0xA3C), (0xA41, 0xA42),
    (0xA47, 0xA48), (0xA4B, 0xA4D), (0xA51, 0xA51), (0xA70, 0xA71), (0xA75, 0xA75),
    (0xA81, 0xA82), (0xABC, 0xABC), (0xAC1, 0xAC5), (0xAC7, 0xAC8), (0xACD, 0xACD),
    (0xAE2, 0xAE3), (0xAFA, 0xAFF), (0xB01, 0xB01), (0xB3C, 0xB3C), (0xB3F, 0xB3F),
    (0xB41, 0xB44), (0xB4D, 0xB4D), (0xB55, 0xB56), (0xB62, 0xB63), (0xB82, 0xB82),
    (0xBC0, 0xBC0), (0xBCD, 0xBCD), (0xC00, 0xC00), (0xC04, 0xC04), (0xC3C, 0xC3C),
    (0xC3E, 0xC40), (0xC46, 0xC48), (0xC4A, 0xC4D), (0xC55, 0xC56), (0xC62, 0xC63),
    (0xC81, 0xC81), (0xCBC, 0xCBC), (0xCBF, 0xCBF), (0xCC6, 0xCC6), (0xCCC, 0xCCD),
    (0xCE2, 0xCE3), (0xD00, 0xD01), (0xD3B, 0xD3C), (0xD41, 0xD44), (0xD4D, 0xD4D),
    (0xD62, 0xD63), (0xD81, 0xD81), (0xDCA, 0xDCA), (0xDD2, 0xDD4), (0xDD6, 0xDD6),
    (0xE31, 0xE31), (0xE34, 0xE3A), (0xE46, 0xE4E), (0xEB1, 0xEB1), (0xEB4, 0xEBC),
    (0xEC6, 0xEC6), (0xEC8, 0xECD), (0xF18, 0xF19), (0xF35, 0xF35), (0xF37, 0xF37),
    (0xF39, 0xF39), (0xF71, 0xF7E), (0xF80, 0xF84), (0xF86, 0xF87), (0xF8D, 0xF97),
    (0xF99, 0xFBC), (0xFC6, 0xFC6), (0x102D, 0x1030), (0x1032, 0x1037), (0x1039, 0x103A),
    (0x103D, 0x103E), (0x1058, 0x1059), (0x105E, 0x1060), (0x1071, 0x1074), (0x1082, 0x1082),
    (0x1085, 0x1086), (0x108D, 0x108D), (0x109D, 0x109D), (0x10FC, 0x10FC), (0x135D, 0x135F),
    (0x1712, 0x1714), (0x1732, 0x1733), (0x1752, 0x1753), (0x1772, 0x1773), (0x17B4, 0x17B5),
    (0x17B7, 0x17BD), (0x17C6, 0x17C6), (0x17C9, 0x17D3), (0x17D7, 0x17D7), (0x17DD, 0x17DD),
    (0x180B, 0x180F), (0x1843, 0x1843), (0x1885, 0x1886), (0x18A9, 0x18A9), (0x1920, 0x1922),
    (0x1927, 0x1928), (0x1932, 0x1932), (0x1939, 0x193B), (0x1A17, 0x1A18), (0x1A1B, 0x1A1B),
    (0x1A56, 0x1A56), (0x1A58, 0x1A5E), (0x1A60, 0x1A60), (0x1A62, 0x1A62), (0x1A65, 0x1A6C),
    (0x1A73, 0x1A7C), (0x1A7F, 0x1A7F), (0x1AA7, 0x1AA7), (0x1AB0, 0x1ACE), (0x1B00, 0x1B03),
    (0x1B34, 0x1B34), (0x1B36, 0x1B3A), (0x1B3C, 0x1B3C), (0x1B42, 0x1B42), (0x1B6B, 0x1B73),
    (0x1B80, 0x1B81), (0x1BA2, 0x1BA5), (0x1BA8, 0x1BA9), (0x1BAB, 0x1BAD), (0x1BE6, 0x1BE6),
    (0x1BE8, 0x1BE9), (0x1BED, 0x1BED), (0x1BEF, 0x1BF1), (0x1C2C, 0x1C33), (0x1C36, 0x1C37),
    (0x1C78, 0x1C7D), (0x1CD0, 0x1CD2), (0x1CD4, 0x1CE0), (0x1CE2, 0x1CE8), (0x1CED, 0x1CED),
    (0x1CF4, 0x1CF4), (0x1CF8, 0x1CF9), (0x1D2C, 0x1D6A), (0x1D78, 0x1D78), (0x1D9B, 0x1DFF),
    (0x1FBD, 0x1FBD), (0x1FBF, 0x1FC1), (0x1FCD, 0x1FCF), (0x1FDD, 0x1FDF), (0x1FED, 0x1FEF),
    (0x1FFD, 0x1FFE), (0x200B, 0x200F), (0x2018, 0x2019), (0x2024, 0x2024), (0x2027, 0x2027),
    (0x202A, 0x202E), (0x2060, 0x2064), (0x2066, 0x206F), (0x2071, 0x2071), (0x207F, 0x207F),
    (0x2090, 0x209C), (0x20D0, 0x20F0), (0x2C7C, 0x2C7D), (0x2CEF, 0x2CF1), (0x2D6F, 0x2D6F),
    (0x2D7F, 0x2D7F), (0x2DE0, 0x2DFF), (0x2E2F, 0x2E2F), (0x3005, 0x3005), (0x302A, 0x302D),
    (0x3031, 0x3035), (0x303B, 0x303B), (0x3099, 0x309E), (0x30FC, 0x30FE), (0xA015, 0xA015),
    (0xA4F8, 0xA4FD), (0xA60C, 0xA60C), (0xA66F, 0xA672), (0xA674, 0xA67D), (0xA67F, 0xA67F),
    (0xA69C, 0xA69F), (0xA6F0, 0xA6F1), (0xA700, 0xA721), (0xA770, 0xA770), (0xA788, 0xA78A),
    (0xA7F2, 0xA7F4), (0xA7F8, 0xA7F9), (0xA802, 0xA802), (0xA806, 0xA806), (0xA80B, 0xA80B),
    (0xA825, 0xA826), (0xA82C, 0xA82C), (0xA8C4, 0xA8C5), (0xA8E0, 0xA8F1), (0xA8FF, 0xA8FF),
    (0xA926, 0xA92D), (0xA947, 0xA951), (0xA980, 0xA982), (0xA9B3, 0xA9B3), (0xA9B6, 0xA9B9),
    (0xA9BC, 0xA9BD), (0xA9CF, 0xA9CF), (0xA9E5, 0xA9E6), (0xAA29, 0xAA2E), (0xAA31, 0xAA32),
    (0xAA35, 0xAA36), (0xAA43, 0xAA43), (0xAA4C, 0xAA4C), (0xAA70, 0xAA70), (0xAA7C, 0xAA7C),
    (0xAAB0, 0xAAB0), (0xAAB2, 0xAAB4), (0xAAB7, 0xAAB8), (0xAABE, 0xAABF), (0xAAC1, 0xAAC1),
    (0xAADD, 0xAADD), (0xAAEC, 0xAAED), (0xAAF3, 0xAAF4), (0xAAF6, 0xAAF6), (0xAB5B, 0xAB5F),
    (0xAB69, 0xAB6B), (0xABE5, 0xABE5), (0xABE8, 0xABE8), (0xABED, 0xABED), (0xFB1E, 0xFB1E),
    (0xFBB2, 0xFBC2), (0xFE00, 0xFE0F), (0xFE13, 0xFE13), (0xFE20, 0xFE2F), (0xFE52, 0xFE52),
    (0xFE55, 0xFE55), (0xFEFF, 0xFEFF), (0xFF07, 0xFF07), (0xFF0E, 0xFF0E), (0xFF1A, 0xFF1A),
    (0xFF3E, 0xFF3E), (0xFF40, 0xFF40), (0xFF70, 0xFF70), (0xFF9E, 0xFF9F), (0xFFE3, 0xFFE3),
    (0xFFF9, 0xFFFB), (0x101FD, 0x101FD), (0x102E0, 0x102E0), (0x10376, 0x1037A),
    (0x10780, 0x10785), (0x10787, 0x107B0), (0x107B2, 0x107BA), (0x10A01, 0x10A03),
    (0x10A05, 0x10A06), (0x10A0C, 0x10A0F), (0x10A38, 0x10A3A), (0x10A3F, 0x10A3F),
    (0x10AE5, 0x10AE6), (0x10D24, 0x10D27), (0x10EAB, 0x10EAC), (0x10F46, 0x10F50),
    (0x10F82, 0x10F85), (0x11001, 0x11001), (0x11038, 0x11046), (0x11070, 0x11070),
    (0x11073, 0x11074), (0x1107F, 0x11081), (0x110B3, 0x110B6), (0x110B9, 0x110BA),
    (0x110BD, 0x110BD), (0x110C2, 0x110C2), (0x110CD, 0x110CD), (0x11100, 0x11102),
    (0x11127, 0x1112B), (0x1112D, 0x11134), (0x11173, 0x11173), (0x11180, 0x11181),
    (0x111B6, 0x111BE), (0x111C9, 0x111CC), (0x111CF, 0x111CF), (0x1122F, 0x11231),
    (0x11234, 0x11234), (0x11236, 0x11237), (0x1123E, 0x1123E), (0x112DF, 0x112DF),
    (0x112E3, 0x112EA), (0x11300, 0x11301), (0x1133B, 0x1133C), (0x11340, 0x11340),
    (0x11366, 0x1136C), (0x11370, 0x11374), (0x11438, 0x1143F), (0x11442, 0x11444),
    (0x11446, 0x11446), (0x1145E, 0x1145E), (0x114B3, 0x114B8), (0x114BA, 0x114BA),
    (0x114BF, 0x114C0), (0x114C2, 0x114C3), (0x115B2, 0x115B5), (0x115BC, 0x115BD),
    (0x115BF, 0x115C0), (0x115DC, 0x115DD), (0x11633, 0x1163A), (0x1163D, 0x1163D),
    (0x1163F, 0x11640), (0x116AB, 0x116AB), (0x116AD, 0x116AD), (0x116B0, 0x116B5),
    (0x116B7, 0x116B7), (0x1171D, 0x1171F), (0x11722, 0x11725), (0x11727, 0x1172B),
    (0x1182F, 0x11837), (0x11839, 0x1183A), (0x1193B, 0x1193C), (0x1193E, 0x1193E),
    (0x11943, 0x11943), (0x119D4, 0x119D7), (0x119DA, 0x119DB), (0x119E0, 0x119E0),
    (0x11A01, 0x11A0A), (0x11A33, 0x11A38), (0x11A3B, 0x11A3E), (0x11A47, 0x11A47),
    (0x11A51, 0x11A56), (0x11A59, 0x11A5B), (0x11A8A, 0x11A96), (0x11A98, 0x11A99),
    (0x11C30, 0x11C36), (0x11C38, 0x11C3D), (0x11C3F, 0x11C3F), (0x11C92, 0x11CA7),
    (0x11CAA, 0x11CB0), (0x11CB2, 0x11CB3), (0x11CB5, 0x11CB6), (0x11D31, 0x11D36),
    (0x11D3A, 0x11D3A), (0x11D3C, 0x11D3D), (0x11D3F, 0x11D45), (0x11D47, 0x11D47),
    (0x11D90, 0x11D91), (0x11D95, 0x11D95), (0x11D97, 0x11D97), (0x11EF3, 0x11EF4),
    (0x13430, 0x13438), (0x16AF0, 0x16AF4), (0x16B30, 0x16B36), (0x16B40, 0x16B43),
    (0x16F4F, 0x16F4F), (0x16F8F, 0x16F9F), (0x16FE0, 0x16FE1), (0x16FE3, 0x16FE4),
    (0x1AFF0, 0x1AFF3), (0x1AFF5, 0x1AFFB), (0x1AFFD, 0x1AFFE), (0x1BC9D, 0x1BC9E),
    (0x1BCA0, 0x1BCA3), (0x1CF00, 0x1CF2D), (0x1CF30, 0x1CF46), (0x1D167, 0x1D169),
    (0x1D173, 0x1D182), (0x1D185, 0x1D18B), (0x1D1AA, 0x1D1AD), (0x1D242, 0x1D244),
    (0x1DA00, 0x1DA36), (0x1DA3B, 0x1DA6C), (0x1DA75, 0x1DA75), (0x1DA84, 0x1DA84),
    (0x1DA9B, 0x1DA9F), (0x1DAA1, 0x1DAAF), (0x1E000, 0x1E006), (0x1E008, 0x1E018),
    (0x1E01B, 0x1E021), (0x1E023, 0x1E024), (0x1E026, 0x1E02A), (0x1E130, 0x1E13D),
    (0x1E2AE, 0x1E2AE), (0x1E2EC, 0x1E2EF), (0x1E8D0, 0x1E8D6), (0x1E944, 0x1E94B),
    (0x1F3FB, 0x1F3FF), (0xE0001, 0xE0001), (0xE0020, 0xE007F), (0xE0100, 0xE01EF) ]

/-- The code points with the property Cased (Unicode 14.0), as sorted ranges
`(first, last)`. -/
def casedRanges : List (Nat × Nat) :=
  [
    (0x41, 0x5A), (0x61, 0x7A), (0xAA, 0xAA), (0xB5, 0xB5), (0xBA, 0xBA), (0xC0, 0xD6),
    (0xD8, 0xF6), (0xF8, 0x1BA), (0x1BC, 0x1BF), (0x1C4, 0x293), (0x295, 0x2B8), (0x2C0, 0x2C1),
    (0x2E0, 0x2E4), (0x345, 0x345), (0x370, 0x373), (0x376, 0x377), (0x37A, 0x37D),
    (0x37F, 0x37F), (0x386, 0x386), (0x388, 0x38A), (0x38C, 0x38C), (0x38E, 0x3A1),
    (0x3A3, 0x3F5), (0x3F7, 0x481), (0x48A, 0x52F), (0x531, 0x556), (0x560, 0x588),
    (0x10A0, 0x10C5), (0x10C7, 0x10C7), (0x10CD, 0x10CD), (0x10D0, 0x10FA), (0x10FD, 0x10FF),
    (0x13A0, 0x13F5), (0x13F8, 0x13FD), (0x1C80, 0x1C88), (0x1C90, 0x1CBA), (0x1CBD, 0x1CBF),
    (0x1D00, 0x1DBF), (0x1E00, 0x1F15), (0x1F18, 0x1F1D), (0x1F20, 0x1F45), (0x1F48, 0x1F4D),
    (0x1F50, 0x1F57), (0x1F59, 0x1F59), (0x1F5B, 0x1F5B), (0x1F5D, 0x1F5D), (0x1F5F, 0x1F7D),
    (0x1F80, 0x1FB4), (0x1FB6, 0x1FBC), (0x1FBE, 0x1FBE), (0x1FC2, 0x1FC4), (0x1FC6, 0x1FCC),
    (0x1FD0, 0x1FD3), (0x1FD6, 0x1FDB), (0x1FE0, 0x1FEC), (0x1FF2, 0x1FF4), (0x1FF6, 0x1FFC),
    (0x2071, 0x2071), (0x207F, 0x207F), (0x2090, 0x209C), (0x2102, 0x2102), (0x2107, 0x2107),
    (0x210A, 0x2113), (0x2115, 0x2115), (0x2119, 0x211D), (0x2124, 0x2124), (0x2126, 0x2126),
    (0x2128, 0x2128), (0x212A, 0x212D), (0x212F, 0x2134), (0x2139, 0x2139), (0x213C, 0x213F),
    (0x2145, 0x2149), (0x214E, 0x214E), (0x2160, 0x217F), (0x2183, 0x2184), (0x24B6, 0x24E9),
    (0x2C00, 0x2CE4), (0x2CEB, 0x2CEE), (0x2CF2, 0x2CF3), (0x2D00, 0x2D25), (0x2D27, 0x2D27),
    (0x2D2D, 0x2D2D), (0xA640, 0xA66D), (0xA680, 0xA69D), (0xA722, 0xA787), (0xA78B, 0xA78E),
    (0xA790, 0xA7CA), (0xA7D0, 0xA7D1), (0xA7D3, 0xA7D3), (0xA7D5, 0xA7D9), (0xA7F5, 0xA7F6),
    (0xA7F8, 0xA7FA), (0xAB30, 0xAB5A), (0xAB5C, 0xAB68), (0xAB70, 0xABBF), (0xFB00, 0xFB06),
    (0xFB13, 0xFB17), (0xFF21, 0xFF3A), (0xFF41, 0xFF5A), (0x10400, 0x1044F),
    (0x104B0, 0x104D3), (0x104D8, 0x104FB), (0x10570, 0x1057A), (0x1057C, 0x1058A),
    (0x1058C, 0x10592), (0x10594, 0x10595), (0x10597, 0x105A1), (0x105A3, 0x105B1),
    (0x105B3, 0x105B9), (0x105BB, 0x105BC), (0x10780, 0x10780), (0x10783, 0x10785),
    (0x10787, 0x107B0), (0x107B2, 0x107BA), (0x10C80, 0x10CB2), (0x10CC0, 0x10CF2),
    (0x118A0, 0x118DF), (0x16E40, 0x16E7F), (0x1D400, 0x1D454), (0x1D456, 0x1D49C),
    (0x1D49E, 0x1D49F), (0x1D4A2, 0x1D4A2), (0x1D4A5, 0x1D4A6), (0x1D4A9, 0x1D4AC),
    (0x1D4AE, 0x1D4B9), (0x1D4BB, 0x1D4BB), (0x1D4BD, 0x1D4C3), (0x1D4C5, 0x1D505),
    (0x1D507, 0x1D50A), (0x1D50D, 0x1D514), (0x1D516, 0x1D51C), (0x1D51E, 0x1D539),
    (0x1D53B, 0x1D53E), (0x1D540, 0x1D544), (0x1D546, 0x1D546), (0x1D54A, 0x1D550),
    (0x1D552, 0x1D6A5), (0x1D6A8, 0x1D6C0), (0x1D6C2, 0x1D6DA), (0x1D6DC, 0x1D6FA),
    (0x1D6FC, 0x1D714), (0x1D716, 0x1D734), (0x1D736, 0x1D74E), (0x1D750, 0x1D76E),
    (0x1D770, 0x1D788), (0x1D78A, 0x1D7A8), (0x1D7AA, 0x1D7C2), (0x1D7C4, 0x1D7CB),
    (0x1DF00, 0x1DF09), (0x1DF0B, 0x1DF1E), (0x1E900, 0x1E943), (0x1F130, 0x1F149),
    (0x1F150, 0x1F169), (0x1F170, 0x1F189) ]

/-- The image of the code point `n` under the rules, if a rule applies. -/
def lowerCode (n : Nat) : List (Nat × Nat × Nat × Nat) → Option Nat
  | [] => none
  | (first, last, step, image) :: rest =>
    if n < first then none
    else if n ≤ last ∧ (n - first) % step = 0 then some (image + (n - first))
    else lowerCode n rest

/-- Membership of `n` in a sorted list of ranges. -/
def inRanges (n : Nat) : List (Nat × Nat) → Bool
  | [] => false
  | (first, last) :: rest =>
    if n < first then false else if n ≤ last then true else inRanges n rest

/-- The property Case_Ignorable. -/
def isCaseIgnorable (c : Char) : Bool :=
  inRanges c.toNat caseIgnorableRanges

/-- The property Cased. -/
def isCased (c : Char) : Bool :=
  inRanges c.toNat casedRanges

/-- Lowercase image of one code point other than GREEK CAPITAL LETTER SIGMA under
`String.prototype.toLowerCase` (the full case mapping of Unicode): ASCII capitals
map to their small letters, LATIN CAPITAL LETTER I WITH DOT ABOVE maps to `i`
followed by COMBINING DOT ABOVE (the one unconditional entry of SpecialCasing), a
code point with a simple lowercase mapping maps to it, every other code point to
itself. -/
def lowerChar (c : Char) : List Char :=
  let n := c.toNat
  if n < 0x80 then
    if 0x41 ≤ n ∧ n ≤ 0x5A then [Char.ofNat (n + 32)] else [c]
  else if n = 0x0130 then ['i', Char.ofNat 0x0307]
  else
    match lowerCode n lowercaseRules with
    | some image => [Char.ofNat image]
    | none => [c]

/-- Whether the text `rest` after a capital sigma starts with case-ignorable code
points followed by a cased one. -/
def followedByCased : List Char → Bool
  | [] => false
  | c :: rest => if isCaseIgnorable c then followedByCased rest else isCased c

/-- The scan of `toLowerCase`. `afterCased` tells whether the text read so far ends
with a cased code point followed by case-ignorable ones. A capital sigma in that
position that is not followed by a cased letter (the condition Final_Sigma) becomes
the final small sigma, any other capital sigma the small sigma. -/
def lowerScan (afterCased : Bool) : List Char → List Char
  | [] => []
  | c :: rest =>
    (if c.toNat = 0x03A3 then
      if afterCased && !followedByCased rest then [Char.ofNat 0x03C2] else [Char.ofNat 0x03C3]
    else lowerChar c) ++
      lowerScan (if isCaseIgnorable c then afterCased else isCased c) rest

/-- Model of `s.toLowerCase()`: the default case conversion of Unicode, with the
character data of version 14.0. -/
def toLowerCase (s : String) : String :=
  String.mk (lowerScan false s.data)

/-- Model of `s.trim()`. -/
def trim (s : String) : String :=
  String.mk ((s.data.dropWhile isWhiteSpace).reverse.dropWhile isWhiteSpace).reverse

/-- Substring test on character lists: does `sub` occur in `s` at some position. -/
def includesChars : List Char → List Char → Bool
  | [], sub => sub.isEmpty
  | c :: cs, sub => sub.isPrefixOf (c :: cs) || includesChars cs sub

/-- Model of `s.includes(sub)`. -/
def includes (s sub : String) : Bool :=
  includesChars s.data sub.data

/-- The scan of `split(/\s+/)`: `inRun` tells whether the previous character was
part of a separator match, `cur` holds the current piece in reverse. A piece is
emitted when a maximal whitespace run starts, and the last piece at the end of the
input; pieces at the very start or end may be empty. -/
def splitScan : Bool → List Char → List Char → List (List Char)
  | _, [], cur => [cur.reverse]
  | inRun, c :: rest, cur =>
    if isWhiteSpace c then
      if inRun then splitScan true rest [] else cur.reverse :: splitScan true rest []
    else splitScan false rest (c :: cur)

/-- Model of `s.split(/\s+/)` on character lists. -/
def splitWhitespace (cs : List Char) : List (List Char) :=
  splitScan false cs []

end Js

/-! ## SimpleSimilarity -/

namespace SimpleSimilarity

/-- Model of `SimpleSimilarity.normalizeText(text)`:
`text.toLowerCase().replace(/[^\w\s]/g, '').split(/\s+/).filter(word => word.length > 2)`. -/
def normalizeText (text : String) : List String :=
  ((Js.splitWhitespace
      ((Js.toLowerCase text).data.filter (fun c => Js.isWordChar c || Js.isWhiteSpace c))).filter
    (fun word => decide (word.length > 2))).map String.mk

/-- Model of `SimpleSimilarity.getSimilarity(text1, text2)`. The intersection is
`words1.filter(word => words2.includes(word))`, a list that keeps the repetitions of
`words1`; the union is the array built from `new Set([...words1, ...words2])`. -/
def getSimilarity (text1 text2 : String) : ℚ :=
  let words1 := normalizeText text1
  let words2 := normalizeText text2
  let intersection := words1.filter (fun word => words2.contains word)
  let union := (words1 ++ words2).dedup
  if union.length > 0 then (intersection.length : ℚ) / (union.length : ℚ) else 0

end SimpleSimilarity


/-! ## Remaining JavaScript primitives -/

namespace Js

/-- An exception raised by the runtime or by an external pipeline. -/
inductive JsError where
  | typeError : String → JsError
  | failure : String → JsError
  deriving DecidableEq, Repr

/-- Model of `x || d` for an optional string: `undefined` and `""` are falsy. -/
def orString (x : Option String) (d : String) : String :=
  match x with
  | some s => if s = "" then d else s
  | none => d

/-- Model of `x || 0` for an optional number: `undefined` and `0` are falsy. -/
def orZero (x : Option ℚ) : ℚ :=
  match x with
  | some q => if q = 0 then 0 else q
  | none => 0

/-- Value of a digit character in the given radix, if it is one. -/
def digitValue (radix : Nat) (c : Char) : Option Nat :=
  let n := c.toNat
  let v := if 0x30 ≤ n ∧ n ≤ 0x39 then n - 0x30
    else if 0x61 ≤ n ∧ n ≤ 0x7A then n - 0x61 + 10
    else if 0x41 ≤ n ∧ n ≤ 0x5A then n - 0x41 + 10
    else radix
  if v < radix then some v else none

/-- Reads the longest run of digits at the front of `cs`, accumulating the value in
`acc`; `seen` tells whether a digit was read. Returns `none` when there is no digit. -/
def readDigits (radix : Nat) : List Char → Nat → Bool → Option Nat
  | [], acc, seen => if seen then some acc else none
  | c :: cs, acc, seen =>
    match digitValue radix c with
    | some v => readDigits radix cs (radix * acc + v) true
    | none => if seen then some acc else none

/-- The optional sign read by `parseInt`: whether it is a minus, and the rest. -/
def readSign : List Char → Bool × List Char
  | '-' :: r => (true, r)
  | '+' :: r => (false, r)
  | r => (false, r)

/-- The optional `0x` or `0X` marker read by `parseInt`: the radix, and the rest. -/
def readRadix : List Char → Nat × List Char
  | '0' :: 'x' :: r => (16, r)
  | '0' :: 'X' :: r => (16, r)
  | r => (10, r)

/-- Model of `parseInt(s)` (no radix argument); `none` stands for `NaN`. Leading
white space is skipped, an optional sign and an optional `0x` marker are read, then
the longest run of digits. -/
def parseInt (s : String) : Option Int :=
  let (negative, cs) := readSign (s.data.dropWhile isWhiteSpace)
  let (radix, cs) := readRadix cs
  match readDigits radix cs 0 false with
  | some n => some (if negative then - (n : Int) else (n : Int))
  | none => none

/-- Model of `/^\d+$/.test(s)`. -/
def allDigits (s : String) : Bool :=
  !s.data.isEmpty && s.data.all isDigit

end Js

/-! ## Data model -/

/-- An entry of the embedded FAQ list. -/
structure FAQ where
  id : Nat
  question : String
  answer : String
  category : String
  keywords : List String
  deriving DecidableEq, Repr

/-- The `type` tag of a candidate. -/
inductive CandidateType where
  | semantic
  | keyword
  | text_similarity
  deriving DecidableEq, Repr

/-- A candidate object pushed by `findBestAnswer`; `matchedKeywords` is present
only on keyword candidates. -/
structure Candidate where
  faq : FAQ
  similarity : ℚ
  type : CandidateType
  matchedKeywords : Option (List String)
  deriving DecidableEq

/-- The object returned by `findBestAnswer`. -/
structure BestAnswer where
  answer : String
  confidence : ℚ
  candidates : List Candidate
  needsClarification : Bool
  deriving DecidableEq

/-- The object returned by `processQuestion`. -/
inductive Response where
  | answer (message : String) (confidence : ℚ)
  | clarification (message : String) (candidates : List Candidate)
  | error (message : String)
  deriving DecidableEq

/-- The `type` field of a response. -/
inductive ResponseType where
  | answer
  | clarification
  | error
  deriving DecidableEq, Repr

/-- Reads the `type` field of a response. -/
def Response.type : Response → ResponseType
  | .answer _ _ => .answer
  | .clarification _ _ => .clarification
  | .error _ => .error

/-- Reads the `message` field of a response. -/
def Response.message : Response → String
  | .answer m _ => m
  | .clarification m _ => m
  | .error m => m

/-- The fields of an `FAQBot` instance. The two pipelines are external; each may be
absent and each call may throw. A call of `questionRephraser` yields the
`generated_text` of each element of the result array, a call of `answerFinder` the
`data` of the result. `sqrt` stands for `Math.sqrt`. -/
structure FAQBot where
  faqs : List FAQ
  questionRephraser : Option (String → Except Js.JsError (List String))
  answerFinder : Option (String → Except Js.JsError (List ℚ))
  isInitialized : Bool
  useFallback : Bool
  sqrt : ℚ → ℚ

/-! ## FAQBot -/

namespace FAQBot

/-- The list assigned to `this.faqs` by `loadFAQs`. -/
def loadFAQs : List FAQ :=
  [ { id := 1
      question := "What is your return policy?"
      answer := "We offer a 30-day return policy for all unused items in original packaging. Returns are free within the US."
      category := "shipping_returns"
      keywords := ["return", "refund", "exchange", "policy", "send back"] },
    { id := 2
      question := "How long does shipping take?"
      answer := "Standard shipping takes 3-5 business days. Express shipping takes 1-2 business days. International shipping takes 7-14 business days."
      category := "shipping_returns"
      keywords := ["shipping", "delivery", "time", "arrive", "when", "how long"] },
    { id := 3
      question := "Do you offer international shipping?"
      answer := "Yes, we ship to over 50 countries worldwide. Shipping costs and times vary by destination."
      category := "shipping_returns"
      keywords := ["international", "global", "countries", "overseas", "worldwide"] },
    { id := 4
      question := "How can I track my order?"
      answer := "You can track your order using the tracking link sent to your email or through your account dashboard. You'll also receive SMS updates if you provided a phone number."
      category := "orders"
      keywords := ["track", "tracking", "status", "where is my order", "location"] },
    { id := 5
      question := "What payment methods do you accept?"
      answer := "We accept credit cards (Visa, MasterCard, American Express), PayPal, Apple Pay, and Google Pay."
      category := "payment"
      keywords := ["payment", "pay", "credit card", "PayPal", "methods", "how to pay"] },
    { id := 6
      question := "Can I change my order after placing it?"
      answer := "You can modify your order within 1 hour of placement. After that, please contact customer service immediately."
      category := "orders"
      keywords := ["change", "modify", "edit", "update", "order", "after"] },
    { id := 7
      question := "Do you have a warranty?"
      answer := "Yes, all products come with a 1-year manufacturer warranty. Extended warranties are available for purchase."
      category := "product"
      keywords := ["warranty", "guarantee", "broken", "defect", "repair"] } ]

/-- The `try` block of `rephraseQuestion`: the pipeline call may throw, and so does
reading `result[0].generated_text` when the result array is empty. -/
def rephraseWith (rephraser : String → Except Js.JsError (List String)) (question : String) :
    Except Js.JsError String :=
  match rephraser ("Make this question clear and formal: " ++ question) with
  | .error e => .error e
  | .ok result =>
    match result.head? with
    | some generated => .ok (Js.trim generated)
    | none => .error (.typeError "Cannot read properties of undefined (reading 'generated_text')")

/-- Model of `rephraseQuestion(question)`. Without a rephraser the question is
trimmed, its question marks are removed and it is lowercased; with one, the `try`
block runs and its `catch` returns the question itself. -/
def rephraseQuestion (bot : FAQBot) (question : String) : String :=
  match bot.useFallback, bot.questionRephraser with
  | false, some rephraser =>
    match rephraseWith rephraser question with
    | .ok rephrased => rephrased
    | .error _ => question
  | _, _ => Js.toLowerCase (String.mk ((Js.trim question).data.filter (fun c => c != '?')))

/-- Model of `getEmbedding(text)`; `none` stands for `null`. The `catch` turns a
throwing pipeline call into `null`. -/
def getEmbedding (bot : FAQBot) (text : String) : Option (List ℚ) :=
  match bot.useFallback, bot.answerFinder with
  | false, some finder =>
    match finder text with
    | .ok data => some data
    | .error _ => none
  | _, _ => none

/-- Model of `cosineSimilarity(vecA, vecB)` on two arrays. -/
def cosineSimilarity (bot : FAQBot) (vecA vecB : List ℚ) : ℚ :=
  if vecA.length ≠ vecB.length then 0
  else
    let dotProduct := (List.zipWith (fun a b => a * b) vecA vecB).foldl (fun sum x => sum + x) 0
    let normA := bot.sqrt (vecA.foldl (fun sum a => sum + a * a) 0)
    let normB := bot.sqrt (vecB.foldl (fun sum b => sum + b * b) 0)
    if normA = 0 ∨ normB = 0 then 0 else dotProduct / (normA * normB)

/-- Method 1 of `findBestAnswer`: the candidates pushed by the embedding loop. -/
def semanticCandidates (bot : FAQBot) (question : String) : List Candidate :=
  if bot.useFallback then []
  else
    match bot.getEmbedding question with
    | none => []
    | some questionEmbedding =>
      bot.faqs.filterMap (fun faq =>
        match bot.getEmbedding faq.question with
        | none => none
        | some faqEmbedding =>
          let similarity := bot.cosineSimilarity questionEmbedding faqEmbedding
          if similarity > 3 / 10 then
            some { faq := faq, similarity := similarity, type := .semantic, matchedKeywords := none }
          else none)

/-- The keywords of `faq` pushed to `matchedKeywords` by the inner loop of Method 2. -/
def matchedKeywords (questionLower : String) (faq : FAQ) : List String :=
  faq.keywords.filter (fun keyword => Js.includes questionLower (Js.toLowerCase keyword))

/-- Method 2 of `findBestAnswer` for one entry: `keywordScore` counts the matched
keywords and is divided by `faq.keywords.length` only when it is positive. -/
def keywordCandidate (questionLower : String) (faq : FAQ) : Option Candidate :=
  let matched := matchedKeywords questionLower faq
  let keywordScore : ℚ := matched.length
  if keywordScore > 0 then
    some { faq := faq, similarity := keywordScore / (faq.keywords.length : ℚ),
           type := .keyword, matchedKeywords := some matched }
  else none

/-- Method 2 of `findBestAnswer`: the candidates pushed by the keyword loop. -/
def keywordCandidates (bot : FAQBot) (question : String) : List Candidate :=
  bot.faqs.filterMap (keywordCandidate (Js.toLowerCase question))

/-- Method 3 of `findBestAnswer`: the candidates pushed by the text-similarity loop. -/
def textSimilarityCandidates (bot : FAQBot) (question : String) : List Candidate :=
  bot.faqs.filterMap (fun faq =>
    let similarity := SimpleSimilarity.getSimilarity question faq.question
    if similarity > 2 / 10 then
      some { faq := faq, similarity := similarity, type := .text_similarity, matchedKeywords := none }
    else none)

/-- The array `candidates` of `findBestAnswer` when the three methods are done:
Method 3 runs only if `candidates.length === 0` after Methods 1 and 2. -/
def collectCandidates (bot : FAQBot) (question : String) : List Candidate :=
  let candidates := bot.semanticCandidates question ++ bot.keywordCandidates question
  if candidates.length = 0 then candidates ++ bot.textSimilarityCandidates question
  else candidates

/-- The filter callback of `removeDuplicateCandidates`, threaded through the list
with the set `seen` of ids met so far. -/
def removeDuplicatesFrom (seen : List Nat) : List Candidate → List Candidate
  | [] => []
  | candidate :: rest =>
    if candidate.faq.id ∈ seen then removeDuplicatesFrom seen rest
    else candidate :: removeDuplicatesFrom (candidate.faq.id :: seen) rest

/-- Model of `removeDuplicateCandidates(candidates)`. -/
def removeDuplicateCandidates (candidates : List Candidate) : List Candidate :=
  removeDuplicatesFrom [] candidates

/-- The order that the comparator `(a, b) => b.similarity - a.similarity` asks for:
`a` may stay in front of `b`. -/
def scoreDescending (a b : Candidate) : Prop := b.similarity ≤ a.similarity

instance : DecidableRel scoreDescending := fun a b =>
  inferInstanceAs (Decidable (b.similarity ≤ a.similarity))

instance : IsTotal Candidate scoreDescending :=
  ⟨fun a b => le_total b.similarity a.similarity⟩

instance : IsTrans Candidate scoreDescending :=
  ⟨fun _ _ _ hab hbc => le_trans hbc hab⟩

/-- Model of `uniqueCandidates.sort((a, b) => b.similarity - a.similarity)`.
`Array.prototype.sort` is stable; with this comparator its result is the one stable
arrangement by descending similarity, computed here by insertion. -/
def sortCandidates (uniqueCandidates : List Candidate) : List Candidate :=
  uniqueCandidates.insertionSort scoreDescending

/-- The array `uniqueCandidates` of `findBestAnswer` after the sort. -/
def rankCandidates (candidates : List Candidate) : List Candidate :=
  sortCandidates (removeDuplicateCandidates candidates)

/-- Model of `getFallbackAnswer()`. -/
def getFallbackAnswer : String :=
  "I'm sorry, I couldn't find a specific answer to your question. Please try rephrasing or contact our support team for more assistance."

/-- Model of reading `array[index].similarity`: a `TypeError` when the element is
`undefined`. -/
def similarityAt (array : List Candidate) (index : Nat) : Except Js.JsError ℚ :=
  match array.get? index with
  | some candidate => .ok candidate.similarity
  | none => .error (.typeError "Cannot read properties of undefined (reading 'similarity')")

/-- The flag `needsClarification` of `findBestAnswer`:
`uniqueCandidates.length > 1 && uniqueCandidates[0].similarity < 0.7 &&
uniqueCandidates[1].similarity > 0.4`, evaluated from left to right. -/
def needsClarification (uniqueCandidates : List Candidate) : Except Js.JsError Bool :=
  if uniqueCandidates.length > 1 then
    match similarityAt uniqueCandidates 0 with
    | .error e => .error e
    | .ok top =>
      if top < 7 / 10 then
        match similarityAt uniqueCandidates 1 with
        | .error e => .error e
        | .ok second => .ok (decide (second > 4 / 10))
      else .ok false
  else .ok false

/-- The end of `findBestAnswer`, from the sorted array `uniqueCandidates`: the flag is
computed, then the returned object is built. -/
def bestAnswerOf (uniqueCandidates : List Candidate) : Except Js.JsError BestAnswer :=
  let bestCandidate := uniqueCandidates.head?
  match needsClarification uniqueCandidates with
  | .error e => .error e
  | .ok flag =>
    .ok { answer := Js.orString (bestCandidate.map (fun c => c.faq.answer)) getFallbackAnswer
          confidence := Js.orZero (bestCandidate.map (fun c => c.similarity))
          candidates := uniqueCandidates.take 3
          needsClarification := flag }

/-- Model of `findBestAnswer(question)`. The embedding loop cannot throw, because
`getEmbedding` and `cosineSimilarity` catch; what can throw is an element read. -/
def findBestAnswer (bot : FAQBot) (question : String) : Except Js.JsError BestAnswer :=
  bestAnswerOf (rankCandidates (bot.collectCandidates question))

/-- The numbered option lines of `askForClarification`, numbered from `index + 1`. -/
def optionLines : Nat → List Candidate → List String
  | _, [] => []
  | index, candidate :: rest =>
    (toString (index + 1) ++ ". " ++ candidate.faq.question) :: optionLines (index + 1) rest

/-- Model of `askForClarification(candidates)`. -/
def askForClarification (candidates : List Candidate) : Response :=
  let clarificationMessage := "I found a few possible answers. Which one were you looking for?"
  let options := "\n".intercalate (optionLines 0 candidates)
  .clarification
    (clarificationMessage ++ "\n\n" ++ options ++ "\n\nPlease respond with the number (1-" ++
      toString candidates.length ++ ") that best matches your question.")
    candidates

/-- Model of `formatAnswer(answer, confidence)`. -/
def formatAnswer (answer : String) (confidence : ℚ) : Response :=
  let confidenceText :=
    if confidence > 8 / 10 then "I'm confident this answers your question:"
    else if confidence > 5 / 10 then "I think this might help:"
    else "This might be relevant to your question:"
  .answer (confidenceText ++ "\n\n" ++ answer) confidence

/-- The response built by `processQuestion` from the result of `findBestAnswer`. -/
def respond (result : BestAnswer) : Response :=
  if result.needsClarification && decide (result.candidates.length > 1) then
    askForClarification result.candidates
  else formatAnswer result.answer result.confidence

/-- Model of `processQuestion(userQuestion)`: the `try` block, and the `catch` that
turns an exception into the error response. -/
def processQuestion (bot : FAQBot) (userQuestion : String) : Response :=
  if !bot.isInitialized then
    .error "Bot is still initializing. Please wait a moment..."
  else
    let rephrasedQuestion := bot.rephraseQuestion userQuestion
    match bot.findBestAnswer rephrasedQuestion with
    | .ok result => respond result
    | .error _ => .error "I encountered an error while processing your question. Please try again."

end FAQBot

/-! ## ChatInterface -/

/-- What `addMessage` and `addConfidence` append to the element `chat-messages`. -/
inductive ChatEntry where
  | message (text : String) (sender : String) (className : String)
  | confidence (value : ℚ)
  deriving DecidableEq

/-- The fields of a `ChatInterface` instance together with the chat log;
`clarificationContext = none` stands for `null`. -/
structure ChatInterface where
  bot : FAQBot
  clarificationContext : Option (List Candidate)
  log : List ChatEntry

namespace ChatInterface

/-- Model of `addMessage(message, sender, className)`. -/
def addMessage (chat : ChatInterface) (message sender : String) (className : String) :
    ChatInterface :=
  { chat with log := chat.log ++ [.message message sender className] }

/-- Model of `addConfidence(confidence)`; the entry keeps the number that is printed. -/
def addConfidence (chat : ChatInterface) (confidence : ℚ) : ChatInterface :=
  { chat with log := chat.log ++ [.confidence confidence] }

/-- Model of `isNumericResponse(message)`, as a truth value. -/
def isNumericResponse (chat : ChatInterface) (message : String) : Bool :=
  Js.allDigits message && chat.clarificationContext.isSome

/-- The `else` branch of `handleClarificationResponse`: the message and the re-prompt
are logged, the context is not touched. -/
def promptAgain (chat : ChatInterface) (message : String) : ChatInterface :=
  (chat.addMessage message "user" "").addMessage
    "Please choose a valid number from the list." "bot" ""

/-- Model of `handleClarificationResponse(message)`. The test
`choice >= 1 && choice <= this.clarificationContext.length` reads the context only
when `choice >= 1` holds; reading `length` of a `null` context raises a `TypeError`.
`NaN` fails the first comparison. -/
def handleClarificationResponse (chat : ChatInterface) (message : String) :
    Except Js.JsError ChatInterface :=
  match Js.parseInt message with
  | none => .ok (chat.promptAgain message)
  | some choice =>
    if choice ≥ 1 then
      match chat.clarificationContext with
      | none => .error (.typeError "Cannot read properties of null (reading 'length')")
      | some context =>
        if choice ≤ (context.length : Int) then
          match context.get? (choice - 1).toNat with
          | some selected =>
            let chat := chat.addMessage message "user" ""
            let chat := chat.addMessage selected.faq.answer "bot" ""
            let chat := chat.addConfidence selected.similarity
            .ok { chat with clarificationContext := none }
          | none => .error (.typeError "Cannot read properties of undefined (reading 'faq')")
        else .ok (chat.promptAgain message)
    else .ok (chat.promptAgain message)

/-- The branch of `handleSendMessage` that stores the response of the bot. -/
def applyResponse (chat : ChatInterface) (response : Response) : ChatInterface :=
  match response with
  | .clarification message candidates =>
    { chat with clarificationContext := some candidates }.addMessage message "bot" "clarification"
  | .error message => chat.addMessage message "bot" ""
  | .answer message confidence =>
    ({ chat with clarificationContext := none }.addMessage message "bot" "").addConfidence confidence

/-- Model of `handleSendMessage()`, with the content `value` of the input field.
The "Thinking..." element is added and removed again, so it leaves no entry. -/
def handleSendMessage (chat : ChatInterface) (value : String) : Except Js.JsError ChatInterface :=
  let message := Js.trim value
  if message = "" then .ok chat
  else if chat.clarificationContext.isSome && chat.isNumericResponse message then
    chat.handleClarificationResponse message
  else
    let chat := chat.addMessage message "user" ""
    .ok (chat.applyResponse (chat.bot.processQuestion message))

end ChatInterface

/-! ## Sample instances -/

/-- A bot in fallback mode: the FAQ list is loaded and both pipelines are missing
(`sqrt` is not called in this mode). -/
def fallbackBot : FAQBot :=
  { faqs := FAQBot.loadFAQs
    questionRephraser := none
    answerFinder := none
    isInitialized := true
    useFallback := true
    sqrt := fun x => x }

/-- The first entry of the embedded FAQ list (return policy). -/
def returnPolicyFAQ : FAQ :=
  { id := 1
    question := "What is your return policy?"
    answer := "We offer a 30-day return policy for all unused items in original packaging. Returns are free within the US."
    category := "shipping_returns"
    keywords := ["return", "refund", "exchange", "policy", "send back"] }

/-- A candidate of the embedding loop for the return-policy entry, similarity 0.35. -/
def semanticReturnPolicy : Candidate :=
  { faq := returnPolicyFAQ, similarity := 35 / 100, type := .semantic, matchedKeywords := none }

/-- A candidate of the keyword loop for the return-policy entry: three of its five
keywords matched, similarity 0.6. -/
def keywordReturnPolicy : Candidate :=
  { faq := returnPolicyFAQ, similarity := 3 / 5, type := .keyword,
    matchedKeywords := some ["return", "refund", "policy"] }

/-- A bot whose models are loaded but whose two pipelines throw on every call
(`sqrt` is not called, as no embedding is obtained). -/
def failingPipelinesBot : FAQBot :=
  { faqs := FAQBot.loadFAQs
    questionRephraser := some (fun _ => .error (.failure "text2text-generation failed"))
    answerFinder := some (fun _ => .error (.failure "feature-extraction failed"))
    isInitialized := true
    useFallback := false
    sqrt := fun x => x }

/-- The fourth entry of the embedded FAQ list (order tracking). -/
def trackOrderFAQ : FAQ :=
  { id := 4
    question := "How can I track my order?"
    answer := "You can track your order using the tracking link sent to your email or through your account dashboard. You'll also receive SMS updates if you provided a phone number."
    category := "orders"
    keywords := ["track", "tracking", "status", "where is my order", "location"] }

/-- The sixth entry of the embedded FAQ list (order change). -/
def changeOrderFAQ : FAQ :=
  { id := 6
    question := "Can I change my order after placing it?"
    answer := "You can modify your order within 1 hour of placement. After that, please contact customer service immediately."
    category := "orders"
    keywords := ["change", "modify", "edit", "update", "order", "after"] }

/-- The two candidates of the clarification that the bot in fallback mode returns for
"tracking order status after change". -/
def pendingAlternatives : List Candidate :=
  [ { faq := trackOrderFAQ, similarity := 3 / 5, type := .keyword,
      matchedKeywords := some ["track", "tracking", "status"] },
    { faq := changeOrderFAQ, similarity := 1 / 2, type := .keyword,
      matchedKeywords := some ["change", "order", "after"] } ]

/-- A chat in which that clarification is pending. -/
def pendingChat : ChatInterface :=
  { bot := fallbackBot
    clarificationContext := some pendingAlternatives
    log := [] }

/-! ## Reference definitions -/

/-- The number written by a string of decimal digits, read from left to right. -/
def Js.decimalValue (s : String) : Nat :=
  s.data.foldl (fun n c => 10 * n + (c.toNat - 0x30)) 0

/-- The Jaccard index of the token sets of two texts, in the spec's words:
`|A ∩ B| / |A ∪ B|`, and 0 when the union is empty. -/
def SimpleSimilarity.jaccardSpec (text1 text2 : String) : ℚ :=
  let A := (SimpleSimilarity.normalizeText text1).toFinset
  let B := (SimpleSimilarity.normalizeText text2).toFinset
  if (A ∪ B).card = 0 then 0 else ((A ∩ B).card : ℚ) / ((A ∪ B).card : ℚ)

/-- ASCII letters and digits: the spec's "alphanumeric". -/
def Js.isAlphanumeric (c : Char) : Bool :=
  let n := c.toNat
  (0x41 ≤ n && n ≤ 0x5A) || (0x61 ≤ n && n ≤ 0x7A) || (0x30 ≤ n && n ≤ 0x39)

/-- ASCII small letters. -/
def Js.isLowerLetter (c : Char) : Bool :=
  let n := c.toNat
  0x61 ≤ n && n ≤ 0x7A

/-- Normalization in the spec's words, for a given class `keep` of characters that
survive the stripping: lowercase; strip every character that is neither in `keep` nor
whitespace; split at whitespace; drop the tokens of length at most 2. -/
def SimpleSimilarity.normalizeTextSpec (keep : Char → Bool) (text : String) : List String :=
  ((((Js.toLowerCase text).data.filter (fun c => keep c || Js.isWhiteSpace c)).splitOnP
      Js.isWhiteSpace).filter (fun word => decide (2 < word.length))).map String.mk

/-! ## What `findBestAnswer` returns when no element read fails -/

/-- The value of the flag `needsClarification` when both element reads succeed. -/
def FAQBot.clarificationFlag (uniqueCandidates : List Candidate) : Bool :=
  match uniqueCandidates with
  | first :: second :: _ =>
    decide (first.similarity < 7 / 10) && decide (second.similarity > 4 / 10)
  | _ => false

/-- The object returned by `findBestAnswer` for the sorted array `uniqueCandidates`
when the flag is computed without an exception. -/
def FAQBot.bestAnswerValue (uniqueCandidates : List Candidate) : BestAnswer :=
  { answer :=
      Js.orString (uniqueCandidates.head?.map (fun c => c.faq.answer)) FAQBot.getFallbackAnswer
    confidence := Js.orZero (uniqueCandidates.head?.map (fun c => c.similarity))
    candidates := uniqueCandidates.take 3
    needsClarification := FAQBot.clarificationFlag uniqueCandidates }

/-- What the keyword loop tests: the lowercased keyword occurs as a contiguous part
of the lowercased query. -/
def Js.occursLowercased (keyword query : String) : Prop :=
  (Js.toLowerCase keyword).data <:+: (Js.toLowerCase query).data

instance (keyword query : String) : Decidable (Js.occursLowercased keyword query) :=
  inferInstanceAs (Decidable ((Js.toLowerCase keyword).data <:+: (Js.toLowerCase query).data))

/-- A text of ASCII characters only. -/
def Js.isAsciiText (s : String) : Prop :=
  ∀ c ∈ s.data, c.toNat < 0x80

instance (s : String) : Decidable (Js.isAsciiText s) :=
  inferInstanceAs (Decidable (∀ c ∈ s.data, c.toNat < 0x80))

/-- Two characters are the same up to the case of an ASCII letter: they are equal, or
one is an ASCII capital and the other its small letter. -/
def Js.sameLetter (c d : Char) : Prop :=
  c = d ∨ (0x41 ≤ c.toNat ∧ c.toNat ≤ 0x5A ∧ d.toNat = c.toNat + 32) ∨
    (0x41 ≤ d.toNat ∧ d.toNat ≤ 0x5A ∧ c.toNat = d.toNat + 32)

/-- A keyword is a case-insensitive substring of a query, stated without any
lowercasing: some contiguous part of the query has the characters of the keyword, one
by one, up to the case of ASCII letters. -/
def Js.occursIgnoringCase (keyword query : String) : Prop :=
  ∃ part : List Char, part <:+: query.data ∧ List.Forall₂ Js.sameLetter keyword.data part

/-- The small letter of an ASCII capital, any other character unchanged. -/
def Js.asciiLower (c : Char) : Char :=
  if 0x41 ≤ c.toNat ∧ c.toNat ≤ 0x5A then Char.ofNat (c.toNat + 32) else c

/-- An FAQ entry with a Greek keyword in capitals ("street"). -/
def streetFAQ : FAQ :=
  { id := 1
    question := "ΠΟΥ ΕΙΝΑΙ Η ΟΔΟΣ;"
    answer := "Ερμού 12, Αθήνα."
    category := "store"
    keywords := ["ΟΔΟΣ"] }

/-- An FAQ entry with a keyword written in capitals with an accented letter. -/
def cafeFAQ : FAQ :=
  { id := 2
    question := "Is there a café in the store?"
    answer := "Yes, on the first floor."
    category := "store"
    keywords := ["CAFÉ", "PayPal"] }

/-- A bot in fallback mode with these two entries. -/
def storeBot : FAQBot :=
  { faqs := [streetFAQ, cafeFAQ]
    questionRephraser := none
    answerFinder := none
    isInitialized := true
    useFallback := true
    sqrt := fun x => x }

/-- The seventh entry of the embedded FAQ list (warranty). -/
def warrantyFAQ : FAQ :=
  { id := 7
    question := "Do you have a warranty?"
    answer := "Yes, all products come with a 1-year manufacturer warranty. Extended warranties are available for purchase."
    category := "product"
    keywords := ["warranty", "guarantee", "broken", "defect", "repair"] }

/-- An FAQ entry whose answer is the empty string. -/
def giftCardFAQ : FAQ :=
  { id := 1
    question := "Do you sell gift cards?"
    answer := ""
    category := "product"
    keywords := ["gift card"] }

/-- A bot in fallback mode whose FAQ list is that one entry. -/
def giftCardBot : FAQBot :=
  { faqs := [giftCardFAQ]
    questionRephraser := none
    answerFinder := none
    isInitialized := true
    useFallback := true
    sqrt := fun x => x }

/-! ## The command-line entry point (`retriever.js`, `answerFormatter.js`, `bot.js`)

The embedder is external: the model starts from the array `scores`, one cosine
product per FAQ vector, that `findRelevantFAQ` computes for the rephrased question. -/

namespace Cli

/-- Model of `Math.max(...scores)`; `none` stands for `-Infinity` (no argument). -/
def mathMax : List ℚ → Option ℚ
  | [] => none
  | score :: rest => some (rest.foldl max score)

/-- Model of `scores.indexOf(x)`, scanning from position `start`; `-1` when absent. -/
def indexOfFrom (x : ℚ) : Nat → List ℚ → Int
  | _, [] => -1
  | start, score :: rest => if score = x then (start : Int) else indexOfFrom x (start + 1) rest

/-- An element `{ score, idx }` of `closeMatches`. -/
structure Match where
  score : ℚ
  idx : Nat
  deriving DecidableEq

/-- Model of `scores.map((score, idx) => ({ score, idx })).filter(x => x.score > 0.55)`,
with the index of the first element given. -/
def closeMatchesFrom : Nat → List ℚ → List Match
  | _, [] => []
  | start, score :: rest =>
    if score > 55 / 100 then { score := score, idx := start } :: closeMatchesFrom (start + 1) rest
    else closeMatchesFrom (start + 1) rest

/-- The object returned by `findRelevantFAQ`. -/
structure Retrieval where
  maxScore : Option ℚ
  bestIndex : Int
  closeMatches : List Match
  deriving DecidableEq

/-- Model of `findRelevantFAQ(query)` from the array `scores` on. -/
def findRelevantFAQ (scores : List ℚ) : Retrieval :=
  let maxScore := mathMax scores
  { maxScore := maxScore
    bestIndex := match maxScore with
      | some value => indexOfFrom value 0 scores
      | none => -1
    closeMatches := closeMatchesFrom 0 scores }

/-- The text after the first occurrence of `separator`, if there is one. -/
def afterSeparator (separator : List Char) : List Char → Option (List Char)
  | [] => none
  | c :: cs =>
    if separator.isPrefixOf (c :: cs) then some ((c :: cs).drop separator.length)
    else afterSeparator separator cs

/-- The text before the first occurrence of `separator`, all of it if there is none. -/
def beforeSeparator (separator : List Char) : List Char → List Char
  | [] => []
  | c :: cs =>
    if separator.isPrefixOf (c :: cs) then [] else c :: beforeSeparator separator cs

/-- Model of `text.split(separator)[1]` for a non-empty separator: the piece between
the first and the second occurrence; `none` stands for `undefined`. -/
def secondPiece (separator text : String) : Option String :=
  (afterSeparator separator.data text.data).map
    (fun rest => String.mk (beforeSeparator separator.data rest))

/-- Model of `formatAnswer(userQuestion, rawAnswer)` of `answerFormatter.js`, for the
pipeline `formatter`; a call yields the `generated_text` of each element of the result.
Nothing is caught here. -/
def formatAnswer (formatter : String → Except Js.JsError (List String))
    (userQuestion rawAnswer : String) : Except Js.JsError String :=
  let prompt := "User asked: \"" ++ userQuestion ++ "\"\n" ++
    "Answer in a natural, friendly, clear tone:\n"
  match formatter (prompt ++ rawAnswer) with
  | .error e => .error e
  | .ok response =>
    match response.head? with
    | none => .error (.typeError "Cannot read properties of undefined (reading 'generated_text')")
    | some generated =>
      .ok (Js.orString ((secondPiece "tone:" generated).map Js.trim) rawAnswer)

/-- The object returned by `processQuestion` of `bot.js`. -/
inductive Response where
  | clarification (message : String) (options : List String)
  | answer (answer : String)
  deriving DecidableEq

/-- Model of `matches.map(m => faqs[m.idx].question)`: a `TypeError` when an entry is
`undefined`. -/
def optionsOf (faqs : List FAQ) : List Match → Except Js.JsError (List String)
  | [] => .ok []
  | m :: rest =>
    match faqs.get? m.idx with
    | none => .error (.typeError "Cannot read properties of undefined (reading 'question')")
    | some faq =>
      match optionsOf faqs rest with
      | .error e => .error e
      | .ok options => .ok (faq.question :: options)

/-- Model of `faqs[bestIndex]`, `none` standing for `undefined`. -/
def entryAt (faqs : List FAQ) (index : Int) : Option FAQ :=
  if index < 0 then none else faqs.get? index.toNat

/-- Model of `processQuestion(userInput)` of `bot.js`, for the list `faqs` read from
`faqs.json`, the pipeline `formatter`, and the array `scores` that `findRelevantFAQ`
computes for the rephrased question. -/
def processQuestion (faqs : List FAQ) (formatter : String → Except Js.JsError (List String))
    (userInput : String) (scores : List ℚ) : Except Js.JsError Response :=
  let found := findRelevantFAQ scores
  let belowLimit : Bool := match found.maxScore with
    | some maxScore => decide (maxScore < 80 / 100)
    | none => true
  if decide (found.closeMatches.length > 1) && belowLimit then
    match optionsOf faqs found.closeMatches with
    | .error e => .error e
    | .ok options =>
      .ok (.clarification "I found multiple related questions. Which one do you mean?" options)
  else
    match entryAt faqs found.bestIndex with
    | none => .error (.typeError "Cannot read properties of undefined (reading 'answer')")
    | some faq =>
      match formatAnswer formatter userInput faq.answer with
      | .error e => .error e
      | .ok final => .ok (.answer final)

/-- Whether the outcome of `processQuestion` is a clarification. -/
def asksClarification : Except Js.JsError Response → Bool
  | .ok (.clarification _ _) => true
  | _ => false

/-- The decision of section 4.5 of the spec on a list of scores: the candidates are the
scores above 0.3, ranked by descending score; clarify when there are at least two,
the top is below 0.7 and the second is above 0.4. -/
def policyClarifies (scores : List ℚ) : Bool :=
  match (scores.filter (fun score => decide (score > 3 / 10))).insertionSort
      (fun a b => b ≤ a) with
  | top :: second :: _ => decide (top < 7 / 10) && decide (second > 4 / 10)
  | _ => false

/-- A text-generation pipeline that returns its prompt as the generated text. -/
def echoFormatter : String → Except Js.JsError (List String) :=
  fun prompt => .ok [prompt]

end Cli

/-! # Theorems -/

/-! ## Shared lemmas on the candidate pipeline -/

namespace FAQBot

theorem removeDuplicatesFrom_sublist (seen : List Nat) (candidates : List Candidate) :
    (removeDuplicatesFrom seen candidates).Sublist candidates := by
  induction candidates generalizing seen with
  | nil => simp [removeDuplicatesFrom]
  | cons c rest ih =>
    unfold removeDuplicatesFrom
    split
    · exact (ih seen).cons c
    · exact (ih _).cons₂ c

theorem removeDuplicateCandidates_sublist (candidates : List Candidate) :
    (removeDuplicateCandidates candidates).Sublist candidates :=
  removeDuplicatesFrom_sublist [] candidates

theorem sortCandidates_perm (l : List Candidate) : (sortCandidates l).Perm l :=
  List.perm_insertionSort scoreDescending l

theorem mem_rankCandidates {c : Candidate} {candidates : List Candidate}
    (h : c ∈ rankCandidates candidates) : c ∈ candidates :=
  (removeDuplicateCandidates_sublist candidates).subset
    ((sortCandidates_perm _).subset h)

theorem faq_mem_of_mem_semanticCandidates {bot : FAQBot} {question : String} {c : Candidate}
    (h : c ∈ bot.semanticCandidates question) : c.faq ∈ bot.faqs ∧ c.type = .semantic := by
  unfold semanticCandidates at h
  split at h
  · simp at h
  · split at h
    · simp at h
    · rw [List.mem_filterMap] at h
      obtain ⟨faq, hfaq, hc⟩ := h
      split at hc
      · simp at hc
      · simp only at hc
        split at hc
        · simp only [Option.some.injEq] at hc
          subst hc
          exact ⟨hfaq, rfl⟩
        · simp at hc

theorem faq_mem_of_mem_keywordCandidates {bot : FAQBot} {question : String} {c : Candidate}
    (h : c ∈ bot.keywordCandidates question) : c.faq ∈ bot.faqs ∧ c.type = .keyword := by
  unfold keywordCandidates at h
  rw [List.mem_filterMap] at h
  obtain ⟨faq, hfaq, hc⟩ := h
  unfold keywordCandidate at hc
  simp only at hc
  split at hc
  · simp only [Option.some.injEq] at hc
    subst hc
    exact ⟨hfaq, rfl⟩
  · simp at hc

theorem faq_mem_of_mem_textSimilarityCandidates {bot : FAQBot} {question : String}
    {c : Candidate} (h : c ∈ bot.textSimilarityCandidates question) :
    c.faq ∈ bot.faqs ∧ c.type = .text_similarity := by
  unfold textSimilarityCandidates at h
  rw [List.mem_filterMap] at h
  obtain ⟨faq, hfaq, hc⟩ := h
  simp only at hc
  split at hc
  · simp only [Option.some.injEq] at hc
    subst hc
    exact ⟨hfaq, rfl⟩
  · simp at hc

theorem collectCandidates_eq (bot : FAQBot) (question : String) :
    bot.collectCandidates question =
      if bot.semanticCandidates question ++ bot.keywordCandidates question = [] then
        bot.textSimilarityCandidates question
      else bot.semanticCandidates question ++ bot.keywordCandidates question := by
  unfold collectCandidates
  by_cases h : bot.semanticCandidates question ++ bot.keywordCandidates question = []
  · simp [h]
  · have h2 : (bot.semanticCandidates question ++ bot.keywordCandidates question).length ≠ 0 := by
      simpa [List.length_eq_zero] using h
    simp only [h, if_false]
    rw [if_neg h2]

theorem faq_mem_of_mem_collectCandidates {bot : FAQBot} {question : String} {c : Candidate}
    (h : c ∈ bot.collectCandidates question) : c.faq ∈ bot.faqs := by
  rw [collectCandidates_eq] at h
  split at h
  · exact (faq_mem_of_mem_textSimilarityCandidates h).1
  · rcases List.mem_append.mp h with h | h
    · exact (faq_mem_of_mem_semanticCandidates h).1
    · exact (faq_mem_of_mem_keywordCandidates h).1

theorem needsClarification_eq (uniqueCandidates : List Candidate) :
    needsClarification uniqueCandidates = .ok (clarificationFlag uniqueCandidates) := by
  match uniqueCandidates with
  | [] => rfl
  | [_] => rfl
  | first :: second :: tail =>
    simp only [needsClarification, clarificationFlag, similarityAt, List.length_cons,
      List.get?_cons_zero, List.get?_cons_succ]
    rw [if_pos (by omega)]
    by_cases htop : first.similarity < 7 / 10
    · simp [htop]
    · simp [htop]

theorem bestAnswerOf_eq (uniqueCandidates : List Candidate) :
    bestAnswerOf uniqueCandidates = .ok (bestAnswerValue uniqueCandidates) := by
  simp only [bestAnswerOf, needsClarification_eq, bestAnswerValue]

theorem findBestAnswer_eq (bot : FAQBot) (question : String) :
    bot.findBestAnswer question =
      .ok (bestAnswerValue (rankCandidates (bot.collectCandidates question))) :=
  bestAnswerOf_eq _

theorem processQuestion_eq (bot : FAQBot) (userQuestion : String)
    (hinit : bot.isInitialized = true) :
    bot.processQuestion userQuestion =
      respond (bestAnswerValue
        (rankCandidates (bot.collectCandidates (bot.rephraseQuestion userQuestion)))) := by
  simp only [processQuestion, hinit, Bool.not_true, Bool.false_eq_true, if_false,
    findBestAnswer_eq]

theorem respond_nil : respond (bestAnswerValue []) = formatAnswer getFallbackAnswer 0 := by
  simp [respond, bestAnswerValue, clarificationFlag, Js.orString, Js.orZero]

theorem orZero_some (q : ℚ) : Js.orZero (some q) = q := by
  unfold Js.orZero
  by_cases h : q = 0 <;> simp [h]

theorem respond_answer (first : Candidate) (rest : List Candidate)
    (h : clarificationFlag (first :: rest) = false) :
    respond (bestAnswerValue (first :: rest)) =
      formatAnswer (if first.faq.answer = "" then getFallbackAnswer else first.faq.answer)
        first.similarity := by
  simp [respond, bestAnswerValue, h, Js.orString, orZero_some]

theorem respond_clarify (first second : Candidate) (rest : List Candidate)
    (h : clarificationFlag (first :: second :: rest) = true) :
    respond (bestAnswerValue (first :: second :: rest)) =
      askForClarification ((first :: second :: rest).take 3) := by
  simp [respond, bestAnswerValue, h]

end FAQBot

/-! ## C1: the decision policy -/

namespace FAQBot

theorem clarificationFlag_cons_cons (first second : Candidate) (tail : List Candidate) :
    clarificationFlag (first :: second :: tail) =
      (decide (first.similarity < 7 / 10) && decide (second.similarity > 4 / 10)) := by
  simp [clarificationFlag]

theorem formatAnswer_eq (answer : String) (confidence : ℚ) :
    formatAnswer answer confidence =
      .answer
        ((if confidence > 8 / 10 then "I'm confident this answers your question:"
          else if confidence > 5 / 10 then "I think this might help:"
          else "This might be relevant to your question:") ++ "\n\n" ++ answer)
        confidence := rfl

theorem formatAnswer_zero (answer : String) :
    formatAnswer answer 0 =
      .answer ("This might be relevant to your question:" ++ "\n\n" ++ answer) 0 := by
  rw [formatAnswer_eq]
  norm_num

theorem askForClarification_candidates (candidates : List Candidate) :
    ∃ message, askForClarification candidates = .clarification message candidates :=
  ⟨_, rfl⟩

theorem giftCard_response :
    giftCardBot.processQuestion "gift card" =
      .answer ("I'm confident this answers your question:" ++ "\n\n" ++
        "I'm sorry, I couldn't find a specific answer to your question. Please try rephrasing or contact our support team for more assistance.")
        1 := by
  decide!

theorem giftCard_ranked_rephrased :
    rankCandidates (giftCardBot.collectCandidates (giftCardBot.rephraseQuestion "gift card")) =
      [{ faq := giftCardFAQ, similarity := 1, type := .keyword,
         matchedKeywords := some ["gift card"] }] := by
  decide!

end FAQBot

/-- C1 as stated fails: for the FAQ set of one entry with the empty answer text and
the question "gift card" the ranked list is that one candidate (score 1), so the
claim's decision is an answer carrying the candidate's answer text; the response
of `processQuestion` carries the fallback text instead. -/
theorem FAQBot.single_candidate_fallback_text :
    ∃ first,
      FAQBot.rankCandidates
        (giftCardBot.collectCandidates (giftCardBot.rephraseQuestion "gift card")) = [first] ∧
      first.faq.answer = "" ∧ first.similarity = 1 ∧
      giftCardBot.processQuestion "gift card" =
        .answer ("I'm confident this answers your question:" ++ "\n\n" ++
          "I'm sorry, I couldn't find a specific answer to your question. Please try rephrasing or contact our support team for more assistance.")
          1 ∧
      giftCardBot.processQuestion "gift card" ≠
        .answer ("I'm confident this answers your question:" ++ "\n\n" ++ first.faq.answer)
          first.similarity := by
  refine ⟨_, FAQBot.giftCard_ranked_rephrased, rfl, rfl, FAQBot.giftCard_response, ?_⟩
  rw [FAQBot.giftCard_response]
  decide!

/-- C1, amended: on an initialized bot the response of `processQuestion` follows from
the ranked list of `findBestAnswer` alone. An empty list gives the no-match response:
an answer with the fallback text and confidence 0. A single candidate, a top score of
at least 0.7, or a second score of at most 0.4 gives an answer whose confidence is the
top score and whose message ends with the answer text of the top candidate, or with
the fallback text when that answer text is the empty string. Otherwise (two candidates
or more, top below 0.7, second above 0.4) it is a clarification whose candidates are
the first `min 3 n` ranked candidates, in ranked order. -/
theorem FAQBot.decision_policy (bot : FAQBot) (userQuestion : String)
    (hinit : bot.isInitialized = true) :
    let ranked := FAQBot.rankCandidates (bot.collectCandidates (bot.rephraseQuestion userQuestion))
    (ranked = [] →
      bot.processQuestion userQuestion =
        .answer ("This might be relevant to your question:" ++ "\n\n" ++
          "I'm sorry, I couldn't find a specific answer to your question. Please try rephrasing or contact our support team for more assistance.")
          0) ∧
    (∀ first rest, ranked = first :: rest →
      (rest = [] ∨ first.similarity ≥ 7 / 10 ∨
        ∃ second tail, rest = second :: tail ∧ second.similarity ≤ 4 / 10) →
      bot.processQuestion userQuestion =
        .answer
          ((if first.similarity > 8 / 10 then "I'm confident this answers your question:"
            else if first.similarity > 5 / 10 then "I think this might help:"
            else "This might be relevant to your question:") ++ "\n\n" ++
            (if first.faq.answer = "" then
              "I'm sorry, I couldn't find a specific answer to your question. Please try rephrasing or contact our support team for more assistance."
            else first.faq.answer))
          first.similarity) ∧
    (∀ first second tail, ranked = first :: second :: tail →
      first.similarity < 7 / 10 → second.similarity > 4 / 10 →
      ∃ message,
        bot.processQuestion userQuestion = .clarification message (ranked.take 3) ∧
        (ranked.take 3).length = min 3 ranked.length ∧
        ranked.take 3 <+: ranked) := by
  intro ranked
  have hproc : bot.processQuestion userQuestion =
      FAQBot.respond (FAQBot.bestAnswerValue ranked) :=
    FAQBot.processQuestion_eq bot userQuestion hinit
  refine ⟨?_, ?_, ?_⟩
  · intro h
    rw [hproc, h, FAQBot.respond_nil, FAQBot.formatAnswer_zero]
    rfl
  · intro first rest h hcond
    rw [hproc, h, FAQBot.respond_answer first rest, FAQBot.formatAnswer_eq]
    · rfl
    · rcases hcond with hrest | htop | ⟨second, tail, hrest, hsecond⟩
      · subst hrest
        simp [FAQBot.clarificationFlag]
      · cases rest with
        | nil => simp [FAQBot.clarificationFlag]
        | cons second tail =>
          rw [FAQBot.clarificationFlag_cons_cons]
          have : ¬ first.similarity < 7 / 10 := not_lt.mpr htop
          simp [this]
      · subst hrest
        rw [FAQBot.clarificationFlag_cons_cons]
        have : ¬ second.similarity > 4 / 10 := not_lt.mpr hsecond
        simp [this]
  · intro first second tail h htop hsecond
    have hflag : FAQBot.clarificationFlag (first :: second :: tail) = true := by
      rw [FAQBot.clarificationFlag_cons_cons]
      simp [htop, hsecond]
    obtain ⟨message, hmessage⟩ := FAQBot.askForClarification_candidates (ranked.take 3)
    refine ⟨message, ?_, by simp [List.length_take], List.take_prefix 3 ranked⟩
    rw [hproc, ← hmessage, h]
    exact FAQBot.respond_clarify first second tail hflag

/-- C1, amended, at a concrete input: the bot in fallback mode with the embedded FAQ
list and the question "refund?", whose ranked list is the one keyword candidate of the
return-policy entry (score 1/5). -/
theorem FAQBot.decision_policy_witness :
    fallbackBot.isInitialized = true ∧
    (∃ first,
      FAQBot.rankCandidates
        (fallbackBot.collectCandidates (fallbackBot.rephraseQuestion "refund?")) = [first] ∧
      first.faq = returnPolicyFAQ ∧ first.similarity = 1 / 5) ∧
    fallbackBot.processQuestion "refund?" =
      .answer ("This might be relevant to your question:" ++ "\n\n" ++
        "We offer a 30-day return policy for all unused items in original packaging. Returns are free within the US.")
        (1 / 5) := by
  have hranked : FAQBot.rankCandidates
      (fallbackBot.collectCandidates (fallbackBot.rephraseQuestion "refund?")) =
      [{ faq := returnPolicyFAQ, similarity := 1 / 5, type := .keyword,
         matchedKeywords := some ["refund"] }] := by
    decide!
  refine ⟨rfl, ⟨_, hranked, rfl, rfl⟩, ?_⟩
  have h := (FAQBot.decision_policy fallbackBot "refund?" rfl).2.1 _ [] hranked (Or.inl rfl)
  rw [h]
  have hlow : ¬ ((1 : ℚ) / 5 > 8 / 10) := by norm_num
  have hmid : ¬ ((1 : ℚ) / 5 > 5 / 10) := by norm_num
  simp only [hlow, hmid, if_false]
  rfl

/-! ## C2: which duplicate is kept -/

namespace FAQBot

theorem filter_removeDuplicatesFrom (id : Nat) (seen : List Nat) (candidates : List Candidate) :
    (removeDuplicatesFrom seen candidates).filter (fun c => c.faq.id == id) =
      if id ∈ seen then [] else (candidates.find? (fun c => c.faq.id == id)).toList := by
  induction candidates generalizing seen with
  | nil => simp [removeDuplicatesFrom]
  | cons c rest ih =>
    unfold removeDuplicatesFrom
    by_cases hseen : c.faq.id ∈ seen
    · rw [if_pos hseen, ih seen]
      by_cases hid : id ∈ seen
      · simp [hid]
      · have hne : c.faq.id ≠ id := fun h => hid (h ▸ hseen)
        simp [hid, List.find?_cons, hne]
    · rw [if_neg hseen]
      by_cases hc : c.faq.id = id
      · have hid : id ∉ seen := fun h => hseen (hc ▸ h)
        simp [List.filter_cons, hc, ih, hid]
      · have hid : (id ∈ c.faq.id :: seen) ↔ id ∈ seen := by
          simp [List.mem_cons, Ne.symm hc]
        simp [List.filter_cons, hc, ih, hid, List.find?_cons]

end FAQBot

/-- C2 as stated fails: with a semantic candidate (0.35) pushed before a keyword
candidate (0.6) of the same entry, `removeDuplicateCandidates` keeps the semantic one,
which has the lower score and another tag; so the kept candidate of an id is not
always a highest-scoring one. -/
theorem FAQBot.removeDuplicateCandidates_not_highest :
    (FAQBot.removeDuplicateCandidates [semanticReturnPolicy, keywordReturnPolicy] =
        [semanticReturnPolicy] ∧
      semanticReturnPolicy.faq.id = keywordReturnPolicy.faq.id ∧
      semanticReturnPolicy.similarity < keywordReturnPolicy.similarity ∧
      semanticReturnPolicy.type ≠ keywordReturnPolicy.type) ∧
    ¬ (∀ candidates : List Candidate, ∀ c ∈ candidates,
        ∃ kept ∈ FAQBot.removeDuplicateCandidates candidates,
          kept.faq.id = c.faq.id ∧
          ∀ d ∈ candidates, d.faq.id = c.faq.id → d.similarity ≤ kept.similarity) := by
  have hrm : FAQBot.removeDuplicateCandidates [semanticReturnPolicy, keywordReturnPolicy] =
      [semanticReturnPolicy] := by
    simp [FAQBot.removeDuplicateCandidates, FAQBot.removeDuplicatesFrom, semanticReturnPolicy,
      keywordReturnPolicy]
  have hlt : semanticReturnPolicy.similarity < keywordReturnPolicy.similarity := by
    simp only [semanticReturnPolicy, keywordReturnPolicy]
    norm_num
  refine ⟨⟨hrm, rfl, hlt, by decide⟩, ?_⟩
  intro h
  obtain ⟨kept, hkept, -, hmax⟩ :=
    h [semanticReturnPolicy, keywordReturnPolicy] keywordReturnPolicy (by simp)
  rw [hrm, List.mem_singleton] at hkept
  subst hkept
  exact absurd (hmax keywordReturnPolicy (by simp) rfl) (not_le.mpr hlt)

/-- C2, amended: for every id, the candidates of that id kept by
`removeDuplicateCandidates` are exactly the first candidate of that id in the list
(none when the id does not occur), whatever the scores; the kept candidates stay in
list order, each with its own score and tag. -/
theorem FAQBot.removeDuplicateCandidates_keeps_first (candidates : List Candidate) (id : Nat) :
    (FAQBot.removeDuplicateCandidates candidates).filter (fun c => c.faq.id == id) =
        (candidates.find? (fun c => c.faq.id == id)).toList ∧
    (FAQBot.removeDuplicateCandidates candidates).Sublist candidates := by
  refine ⟨?_, FAQBot.removeDuplicateCandidates_sublist candidates⟩
  have h := FAQBot.filter_removeDuplicatesFrom id [] candidates
  simpa [FAQBot.removeDuplicateCandidates] using h

/-! ## C3: the ranked list -/

namespace FAQBot

theorem removeDuplicatesFrom_ids (seen : List Nat) (candidates : List Candidate) :
    ((removeDuplicatesFrom seen candidates).map (fun c => c.faq.id)).Nodup ∧
    ∀ c ∈ removeDuplicatesFrom seen candidates, c.faq.id ∉ seen := by
  induction candidates generalizing seen with
  | nil => simp [removeDuplicatesFrom]
  | cons c rest ih =>
    unfold removeDuplicatesFrom
    by_cases hseen : c.faq.id ∈ seen
    · rw [if_pos hseen]
      exact ih seen
    · rw [if_neg hseen]
      obtain ⟨hnodup, hfresh⟩ := ih (c.faq.id :: seen)
      refine ⟨?_, ?_⟩
      · rw [List.map_cons, List.nodup_cons]
        refine ⟨?_, hnodup⟩
        intro hmem
        obtain ⟨d, hd, hid⟩ := List.mem_map.mp hmem
        exact hfresh d hd (by simp [hid])
      · intro d hd
        rcases List.mem_cons.mp hd with rfl | hd
        · exact hseen
        · exact fun h => hfresh d hd (List.mem_cons_of_mem _ h)

theorem filter_orderedInsert (s : ℚ) (a : Candidate) (l : List Candidate) :
    (l.orderedInsert scoreDescending a).filter (fun c => decide (c.similarity = s)) =
      (a :: l).filter (fun c => decide (c.similarity = s)) := by
  induction l with
  | nil => simp
  | cons b rest ih =>
    rw [List.orderedInsert]
    by_cases hab : scoreDescending a b
    · rw [if_pos hab]
    · rw [if_neg hab]
      have hlt : a.similarity < b.similarity := not_le.mp hab
      by_cases ha : a.similarity = s
      · have hb : b.similarity ≠ s := fun h => absurd hlt (by rw [ha, h]; exact lt_irrefl s)
        rw [List.filter_cons_of_neg (by simpa using hb), ih]
        simp [List.filter_cons, ha, hb]
      · rw [List.filter_cons, ih]
        simp [List.filter_cons, ha]

theorem filter_sortCandidates (s : ℚ) (l : List Candidate) :
    (sortCandidates l).filter (fun c => decide (c.similarity = s)) =
      l.filter (fun c => decide (c.similarity = s)) := by
  induction l with
  | nil => simp [sortCandidates]
  | cons a rest ih =>
    unfold sortCandidates at ih ⊢
    rw [List.insertionSort, filter_orderedInsert, List.filter_cons, ih, List.filter_cons]

theorem collectCandidates_sublist (bot : FAQBot) (question : String) :
    (bot.collectCandidates question).Sublist
      (bot.semanticCandidates question ++ bot.keywordCandidates question ++
        bot.textSimilarityCandidates question) := by
  rw [collectCandidates_eq]
  split
  · exact List.sublist_append_right _ _
  · exact List.sublist_append_left _ _

end FAQBot

/-- C3: the ranked list of `findBestAnswer` holds at most one candidate per FAQ id, is
sorted by non-increasing similarity, and is a rearrangement of the deduplicated list in
which the candidates of any one score keep their collection order: they form a
sub-sequence of the semantic candidates followed by the keyword candidates followed by
the text-similarity candidates. -/
theorem FAQBot.ranked_list_invariant (bot : FAQBot) (question : String) :
    let collected := bot.collectCandidates question
    let ranked := FAQBot.rankCandidates collected
    (ranked.map (fun c => c.faq.id)).Nodup ∧
    ranked.Sorted (fun a b => b.similarity ≤ a.similarity) ∧
    ranked.Perm (FAQBot.removeDuplicateCandidates collected) ∧
    (∀ s : ℚ,
      ranked.filter (fun c => decide (c.similarity = s)) =
        (FAQBot.removeDuplicateCandidates collected).filter (fun c => decide (c.similarity = s)) ∧
      (ranked.filter (fun c => decide (c.similarity = s))).Sublist
        (bot.semanticCandidates question ++ bot.keywordCandidates question ++
          bot.textSimilarityCandidates question)) := by
  intro collected ranked
  have hperm : ranked.Perm (FAQBot.removeDuplicateCandidates collected) :=
    FAQBot.sortCandidates_perm _
  have hstable : ∀ s : ℚ, ranked.filter (fun c => decide (c.similarity = s)) =
      (FAQBot.removeDuplicateCandidates collected).filter (fun c => decide (c.similarity = s)) :=
    fun s => FAQBot.filter_sortCandidates s _
  refine ⟨?_, ?_, hperm, ?_⟩
  · exact ((hperm.map _).nodup_iff).mpr (FAQBot.removeDuplicatesFrom_ids [] collected).1
  · exact List.sorted_insertionSort FAQBot.scoreDescending _
  · intro s
    refine ⟨hstable s, ?_⟩
    rw [hstable s]
    exact ((List.filter_sublist _).trans
      (FAQBot.removeDuplicateCandidates_sublist collected)).trans
      (FAQBot.collectCandidates_sublist bot question)

/-! ## C4: when the text-similarity fallback runs -/

namespace FAQBot

theorem type_of_mem_collectCandidates {bot : FAQBot} {question : String}
    (h : bot.semanticCandidates question ≠ [] ∨ bot.keywordCandidates question ≠ [])
    {c : Candidate} (hc : c ∈ bot.collectCandidates question) :
    c.type ≠ .text_similarity := by
  have hne : bot.semanticCandidates question ++ bot.keywordCandidates question ≠ [] := by
    intro hnil
    obtain ⟨h1, h2⟩ := List.append_eq_nil.mp hnil
    rcases h with h | h
    · exact h h1
    · exact h h2
  rw [collectCandidates_eq, if_neg hne] at hc
  rcases List.mem_append.mp hc with hc | hc
  · rw [(faq_mem_of_mem_semanticCandidates hc).2]
    decide
  · rw [(faq_mem_of_mem_keywordCandidates hc).2]
    decide

theorem mem_candidates_bestAnswerValue {bot : FAQBot} {question : String} {c : Candidate}
    (hc : c ∈ (bestAnswerValue (rankCandidates (bot.collectCandidates question))).candidates) :
    c ∈ bot.collectCandidates question :=
  mem_rankCandidates (List.mem_of_mem_take hc)

theorem keywordCandidates_refund :
    fallbackBot.keywordCandidates "refund?" ≠ [] := by
  decide

end FAQBot

/-- C4: the text-similarity candidates enter the collected list exactly when the
semantic and the keyword loop pushed nothing (then the list is the text-similarity
candidates, otherwise it is the semantic candidates followed by the keyword
candidates); and when one of the two loops pushed a candidate, no candidate tagged
`text_similarity` is collected or returned. -/
theorem FAQBot.text_similarity_only_when_empty (bot : FAQBot) (question : String) :
    (bot.semanticCandidates question ++ bot.keywordCandidates question = [] →
      bot.collectCandidates question = bot.textSimilarityCandidates question) ∧
    (bot.semanticCandidates question ++ bot.keywordCandidates question ≠ [] →
      bot.collectCandidates question =
        bot.semanticCandidates question ++ bot.keywordCandidates question) ∧
    (bot.semanticCandidates question ≠ [] ∨ bot.keywordCandidates question ≠ [] →
      (∀ c ∈ bot.collectCandidates question, c.type ≠ .text_similarity) ∧
      ∃ result, bot.findBestAnswer question = .ok result ∧
        ∀ c ∈ result.candidates, c.type ≠ .text_similarity) := by
  refine ⟨?_, ?_, ?_⟩
  · intro h
    rw [FAQBot.collectCandidates_eq, if_pos h]
  · intro h
    rw [FAQBot.collectCandidates_eq, if_neg h]
  · intro h
    exact ⟨fun c hc => FAQBot.type_of_mem_collectCandidates h hc,
      _, FAQBot.findBestAnswer_eq bot question,
      fun c hc => FAQBot.type_of_mem_collectCandidates h
        (FAQBot.mem_candidates_bestAnswerValue hc)⟩

/-- C4 at a concrete input: in fallback mode the question "refund?" has a keyword
candidate, so nothing tagged `text_similarity` is collected or returned. -/
theorem FAQBot.text_similarity_only_when_empty_witness :
    (fallbackBot.semanticCandidates "refund?" ≠ [] ∨
      fallbackBot.keywordCandidates "refund?" ≠ []) ∧
    ((∀ c ∈ fallbackBot.collectCandidates "refund?", c.type ≠ .text_similarity) ∧
      ∃ result, fallbackBot.findBestAnswer "refund?" = .ok result ∧
        ∀ c ∈ result.candidates, c.type ≠ .text_similarity) :=
  ⟨Or.inr FAQBot.keywordCandidates_refund,
    (FAQBot.text_similarity_only_when_empty fallbackBot "refund?").2.2
      (Or.inr FAQBot.keywordCandidates_refund)⟩

/-! ## C8: a missing query embedding -/

namespace FAQBot

theorem semanticCandidates_eq_nil_of_getEmbedding {bot : FAQBot} {question : String}
    (h : bot.getEmbedding question = none) : bot.semanticCandidates question = [] := by
  unfold semanticCandidates
  split
  · rfl
  · rw [h]

theorem semanticCandidates_fallback (bot : FAQBot) (question : String) :
    semanticCandidates { bot with useFallback := true } question = [] := by
  simp [semanticCandidates]

theorem collectCandidates_congr (bot other : FAQBot) (question : String)
    (hfaqs : other.faqs = bot.faqs)
    (hsem : other.semanticCandidates question = bot.semanticCandidates question) :
    other.collectCandidates question = bot.collectCandidates question := by
  simp only [collectCandidates, keywordCandidates, textSimilarityCandidates, hfaqs, hsem]

end FAQBot

/-- C8: when `getEmbedding` yields no vector for the question (pipeline missing,
fallback mode, or the call fails), `findBestAnswer` returns exactly what it returns in
fallback mode (`useFallback = true`), that is the result of the keyword and
text-similarity strategies alone, and no returned candidate is tagged `semantic`. -/
theorem FAQBot.findBestAnswer_without_embedding (bot : FAQBot) (question : String)
    (h : bot.getEmbedding question = none) :
    bot.findBestAnswer question =
        FAQBot.findBestAnswer { bot with useFallback := true } question ∧
    bot.semanticCandidates question = [] ∧
    (∀ c ∈ bot.collectCandidates question, c.type ≠ .semantic) ∧
    ∃ result, bot.findBestAnswer question = .ok result ∧
      ∀ c ∈ result.candidates, c.type ≠ .semantic := by
  have hsem := FAQBot.semanticCandidates_eq_nil_of_getEmbedding h
  have hcollect : ∀ c ∈ bot.collectCandidates question, c.type ≠ .semantic := by
    intro c hc
    rw [FAQBot.collectCandidates_eq, hsem] at hc
    split at hc
    · rw [(FAQBot.faq_mem_of_mem_textSimilarityCandidates hc).2]
      decide
    · rw [List.nil_append] at hc
      rw [(FAQBot.faq_mem_of_mem_keywordCandidates hc).2]
      decide
  refine ⟨?_, hsem, hcollect, _, FAQBot.findBestAnswer_eq bot question,
    fun c hc => hcollect c (FAQBot.mem_candidates_bestAnswerValue hc)⟩
  unfold FAQBot.findBestAnswer
  rw [FAQBot.collectCandidates_congr bot { bot with useFallback := true } question rfl
    ((FAQBot.semanticCandidates_fallback bot question).trans hsem.symm)]

/-- C8 at a concrete input: a bot whose pipelines throw on every call. -/
theorem FAQBot.findBestAnswer_without_embedding_witness :
    failingPipelinesBot.getEmbedding "refund" = none ∧
    (failingPipelinesBot.findBestAnswer "refund" =
        FAQBot.findBestAnswer { failingPipelinesBot with useFallback := true } "refund" ∧
      failingPipelinesBot.semanticCandidates "refund" = [] ∧
      (∀ c ∈ failingPipelinesBot.collectCandidates "refund", c.type ≠ .semantic) ∧
      ∃ result, failingPipelinesBot.findBestAnswer "refund" = .ok result ∧
        ∀ c ∈ result.candidates, c.type ≠ .semantic) :=
  ⟨rfl, FAQBot.findBestAnswer_without_embedding failingPipelinesBot "refund" rfl⟩

/-! ## C5: answering a pending clarification with a number -/

namespace Js

theorem digitValue_of_isDigit {c : Char} (h : isDigit c = true) :
    digitValue 10 c = some (c.toNat - 0x30) := by
  simp only [isDigit, Bool.and_eq_true, decide_eq_true_eq] at h
  unfold digitValue
  simp only [h.1, h.2, and_self, if_true]
  have : c.toNat - 0x30 < 10 := by omega
  simp [this]

theorem not_isWhiteSpace_of_isDigit {c : Char} (h : isDigit c = true) :
    isWhiteSpace c = false := by
  simp only [isDigit, Bool.and_eq_true, decide_eq_true_eq] at h
  unfold isWhiteSpace
  simp only [Bool.or_eq_false_iff, Bool.and_eq_false_iff, beq_eq_false_iff_ne, decide_eq_false_iff_not]
  omega

theorem readDigits_of_all_isDigit (cs : List Char) (acc : Nat) (seen : Bool)
    (h : cs.all isDigit = true) (hne : cs ≠ [] ∨ seen = true) :
    readDigits 10 cs acc seen = some (cs.foldl (fun n c => 10 * n + (c.toNat - 0x30)) acc) := by
  induction cs generalizing acc seen with
  | nil =>
    rcases hne with hne | hne
    · exact absurd rfl hne
    · simp [readDigits, hne]
  | cons c rest ih =>
    rw [List.all_cons, Bool.and_eq_true] at h
    rw [readDigits, digitValue_of_isDigit h.1]
    simp only [List.foldl_cons]
    exact ih _ true h.2 (Or.inr rfl)

theorem readSign_of_isDigit {c : Char} (rest : List Char) (h : isDigit c = true) :
    readSign (c :: rest) = (false, c :: rest) := by
  unfold readSign
  split
  · rename_i r heq
    cases heq
    exact absurd h (by decide)
  · rename_i r heq
    cases heq
    exact absurd h (by decide)
  · rfl

theorem readRadix_of_all_isDigit (cs : List Char) (h : cs.all isDigit = true) :
    readRadix cs = (10, cs) := by
  unfold readRadix
  split
  · simp only [List.all_cons, Bool.and_eq_true] at h
    exact absurd h.2.1 (by decide)
  · simp only [List.all_cons, Bool.and_eq_true] at h
    exact absurd h.2.1 (by decide)
  · rfl

theorem parseInt_of_allDigits {s : String} (h : allDigits s = true) :
    parseInt s = some (decimalValue s : Int) := by
  unfold allDigits at h
  rw [Bool.and_eq_true] at h
  obtain ⟨hne, hall⟩ := h
  unfold parseInt decimalValue
  cases hs : s.data with
  | nil => simp [hs] at hne
  | cons c rest =>
    rw [hs] at hall
    have hc : isDigit c = true := by
      rw [List.all_cons, Bool.and_eq_true] at hall
      exact hall.1
    have hws := not_isWhiteSpace_of_isDigit hc
    have hdrop : List.dropWhile isWhiteSpace (c :: rest) = c :: rest := by
      simp [List.dropWhile_cons, hws]
    simp only [hdrop, readSign_of_isDigit rest hc, readRadix_of_all_isDigit _ hall,
      readDigits_of_all_isDigit _ 0 false hall (Or.inl (List.cons_ne_nil _ _))]
    rfl

end Js

/-- C5: with a pending clarification of `N` alternatives (any `N`, so every `N ≥ 1`)
and an all-digit message writing the number `k`, `handleClarificationResponse` emits
the message, the answer of `alternatives[k-1]` and its confidence and clears the
context when `1 ≤ k ≤ N`; when `k = 0` or `k > N` it emits the message and the
re-prompt and leaves the context as it was. -/
theorem ChatInterface.handleClarificationResponse_numeric (chat : ChatInterface)
    (alternatives : List Candidate) (message : String)
    (hctx : chat.clarificationContext = some alternatives)
    (hdigits : Js.allDigits message = true) :
    (1 ≤ Js.decimalValue message ∧ Js.decimalValue message ≤ alternatives.length →
      ∃ selected, alternatives.get? (Js.decimalValue message - 1) = some selected ∧
        chat.handleClarificationResponse message = .ok
          { bot := chat.bot
            clarificationContext := none
            log := chat.log ++ [.message message "user" "",
              .message selected.faq.answer "bot" "", .confidence selected.similarity] }) ∧
    (Js.decimalValue message = 0 ∨ alternatives.length < Js.decimalValue message →
      chat.handleClarificationResponse message = .ok
        { bot := chat.bot
          clarificationContext := some alternatives
          log := chat.log ++ [.message message "user" "",
            .message "Please choose a valid number from the list." "bot" ""] }) := by
  have hparse := Js.parseInt_of_allDigits hdigits
  refine ⟨?_, ?_⟩
  · rintro ⟨h1, h2⟩
    have hlt : Js.decimalValue message - 1 < alternatives.length := by omega
    refine ⟨alternatives.get ⟨_, hlt⟩, List.get?_eq_get hlt, ?_⟩
    have hrange : ((Js.decimalValue message : Int) ≥ 1 ∧
        (Js.decimalValue message : Int) ≤ (alternatives.length : Int)) := by
      constructor <;> omega
    have hidx : ((Js.decimalValue message : Int) - 1).toNat = Js.decimalValue message - 1 := by
      omega
    simp only [ChatInterface.handleClarificationResponse, hctx, hparse, hrange.1, hrange.2,
      if_true, hidx, List.get?_eq_get hlt, ChatInterface.addMessage,
      ChatInterface.addConfidence, List.append_assoc, List.singleton_append, List.cons_append,
      List.nil_append]
  · intro h
    have hlog : chat.promptAgain message =
        { bot := chat.bot
          clarificationContext := some alternatives
          log := chat.log ++ [.message message "user" "",
            .message "Please choose a valid number from the list." "bot" ""] } := by
      simp only [ChatInterface.promptAgain, ChatInterface.addMessage, hctx, List.append_assoc,
        List.singleton_append]
    simp only [ChatInterface.handleClarificationResponse, hctx, hparse]
    rcases h with h | h
    · have hlow : ¬ ((Js.decimalValue message : Int) ≥ 1) := by omega
      rw [if_neg hlow, hlog]
    · have hhigh : ¬ ((Js.decimalValue message : Int) ≤ (alternatives.length : Int)) := by omega
      rw [if_neg hhigh, hlog]
      split <;> rfl

/-- C5 at a concrete input: the pending two-way clarification answered with "2". -/
theorem ChatInterface.handleClarificationResponse_numeric_witness :
    (pendingChat.clarificationContext = some pendingAlternatives ∧ Js.allDigits "2" = true) ∧
    ((1 ≤ Js.decimalValue "2" ∧ Js.decimalValue "2" ≤ pendingAlternatives.length →
      ∃ selected, pendingAlternatives.get? (Js.decimalValue "2" - 1) = some selected ∧
        pendingChat.handleClarificationResponse "2" = .ok
          { bot := pendingChat.bot
            clarificationContext := none
            log := pendingChat.log ++ [.message "2" "user" "",
              .message selected.faq.answer "bot" "", .confidence selected.similarity] }) ∧
    (Js.decimalValue "2" = 0 ∨ pendingAlternatives.length < Js.decimalValue "2" →
      pendingChat.handleClarificationResponse "2" = .ok
        { bot := pendingChat.bot
          clarificationContext := some pendingAlternatives
          log := pendingChat.log ++ [.message "2" "user" "",
            .message "Please choose a valid number from the list." "bot" ""] })) :=
  ⟨⟨rfl, by decide⟩,
    ChatInterface.handleClarificationResponse_numeric pendingChat pendingAlternatives "2"
      rfl (by decide)⟩

/-! ## C6: a question typed while a clarification is pending -/

namespace ChatInterface

theorem pendingAlternatives_from_bot :
    fallbackBot.processQuestion "tracking order status after change" =
      FAQBot.askForClarification pendingAlternatives := by
  decide!

theorem processQuestion_hello :
    fallbackBot.processQuestion "hello" = FAQBot.formatAnswer FAQBot.getFallbackAnswer 0 := by
  decide!

theorem handleSendMessage_question (chat : ChatInterface) (value : String)
    (hne : Js.trim value ≠ "") (hnn : Js.allDigits (Js.trim value) = false) :
    chat.handleSendMessage value =
      .ok ((chat.addMessage (Js.trim value) "user" "").applyResponse
        (chat.bot.processQuestion (Js.trim value))) := by
  simp [handleSendMessage, hne, isNumericResponse, hnn, addMessage]

theorem applyResponse_context (chat : ChatInterface) (response : Response) :
    (chat.applyResponse response).clarificationContext =
      match response with
      | .clarification _ candidates => some candidates
      | .error _ => chat.clarificationContext
      | .answer _ _ => none := by
  cases response <;> rfl

end ChatInterface

/-- C6 as stated fails: with the two-way clarification pending, the non-numeric
message "hello" is matched afresh, the bot answers (no match), and
`handleSendMessage` sets `clarificationContext` to `null`. -/
theorem ChatInterface.handleSendMessage_clears_pending :
    (pendingChat.clarificationContext = some pendingAlternatives ∧
      Js.trim "hello" ≠ "" ∧ Js.allDigits (Js.trim "hello") = false) ∧
    ∃ chat, pendingChat.handleSendMessage "hello" = .ok chat ∧
      chat.clarificationContext = none ∧
      chat.clarificationContext ≠ pendingChat.clarificationContext := by
  refine ⟨⟨rfl, by decide, by decide⟩, _,
    ChatInterface.handleSendMessage_question pendingChat "hello" (by decide) (by decide), ?_⟩
  have hctx : ((pendingChat.addMessage (Js.trim "hello") "user" "").applyResponse
      (pendingChat.bot.processQuestion (Js.trim "hello"))).clarificationContext = none := by
    rw [ChatInterface.applyResponse_context]
    have htrim : Js.trim "hello" = "hello" := by decide
    rw [htrim]
    show (match fallbackBot.processQuestion "hello" with
      | .clarification _ candidates => some candidates
      | .error _ => _
      | .answer _ _ => none) = none
    rw [ChatInterface.processQuestion_hello]
    rfl
  refine ⟨hctx, ?_⟩
  rw [hctx]
  exact fun h => Option.noConfusion h

/-- C6, amended: for a non-empty message that is not all digits, `handleSendMessage`
logs the message, asks the bot, and stores the outcome: the context becomes the
candidates of the new clarification when the bot asks for one, `null` when the bot
answers (a match or no match), and keeps its value only when the bot returns the error
response. -/
theorem ChatInterface.handleSendMessage_non_numeric (chat : ChatInterface) (value : String)
    (hne : Js.trim value ≠ "") (hnn : Js.allDigits (Js.trim value) = false) :
    ∃ next, chat.handleSendMessage value = .ok next ∧
      (∀ message candidates,
        chat.bot.processQuestion (Js.trim value) = .clarification message candidates →
        next.clarificationContext = some candidates) ∧
      (∀ message confidence,
        chat.bot.processQuestion (Js.trim value) = .answer message confidence →
        next.clarificationContext = none) ∧
      (∀ message,
        chat.bot.processQuestion (Js.trim value) = .error message →
        next.clarificationContext = chat.clarificationContext) := by
  refine ⟨_, ChatInterface.handleSendMessage_question chat value hne hnn, ?_, ?_, ?_⟩
  · intro message candidates h
    rw [ChatInterface.applyResponse_context, h]
  · intro message confidence h
    rw [ChatInterface.applyResponse_context, h]
  · intro message h
    rw [ChatInterface.applyResponse_context, h]
    rfl

/-- C6, amended, at a concrete input: "hello" typed while the two-way clarification
is pending. -/
theorem ChatInterface.handleSendMessage_non_numeric_witness :
    (Js.trim "hello" ≠ "" ∧ Js.allDigits (Js.trim "hello") = false) ∧
    ∃ next, pendingChat.handleSendMessage "hello" = .ok next ∧
      (∀ message candidates,
        pendingChat.bot.processQuestion (Js.trim "hello") = .clarification message candidates →
        next.clarificationContext = some candidates) ∧
      (∀ message confidence,
        pendingChat.bot.processQuestion (Js.trim "hello") = .answer message confidence →
        next.clarificationContext = none) ∧
      (∀ message,
        pendingChat.bot.processQuestion (Js.trim "hello") = .error message →
        next.clarificationContext = pendingChat.clarificationContext) :=
  ⟨⟨by decide, by decide⟩,
    ChatInterface.handleSendMessage_non_numeric pendingChat "hello" (by decide) (by decide)⟩

/-! ## C7: `processQuestion` always decides -/

namespace FAQBot

theorem respond_cases (ranked : List Candidate) :
    (ranked = [] ∧ respond (bestAnswerValue ranked) = formatAnswer getFallbackAnswer 0) ∨
    (∃ first, ranked.head? = some first ∧
      respond (bestAnswerValue ranked) =
        formatAnswer (Js.orString (some first.faq.answer) getFallbackAnswer) first.similarity) ∨
    (2 ≤ ranked.length ∧
      respond (bestAnswerValue ranked) = askForClarification (ranked.take 3)) := by
  match ranked with
  | [] => exact Or.inl ⟨rfl, respond_nil⟩
  | [only] =>
    refine Or.inr (Or.inl ⟨only, rfl, ?_⟩)
    simp [respond, bestAnswerValue, clarificationFlag, orZero_some]
  | first :: second :: tail =>
    by_cases h : clarificationFlag (first :: second :: tail) = true
    · exact Or.inr (Or.inr ⟨by simp, respond_clarify first second tail h⟩)
    · refine Or.inr (Or.inl ⟨first, rfl, ?_⟩)
      simp [respond, bestAnswerValue, h, orZero_some]

theorem type_respond_ne_error (result : BestAnswer) : (respond result).type ≠ .error := by
  unfold respond
  split
  · simp [askForClarification, Response.type]
  · simp [formatAnswer, Response.type]

theorem matchedKeywords_length_le (questionLower : String) (faq : FAQ) :
    (matchedKeywords questionLower faq).length ≤ faq.keywords.length :=
  List.length_filter_le _ _

theorem keywordCandidate_similarity {questionLower : String} {faq : FAQ} {c : Candidate}
    (h : keywordCandidate questionLower faq = some c) :
    0 < (matchedKeywords questionLower faq).length ∧
    c.similarity =
      ((matchedKeywords questionLower faq).length : ℚ) / (faq.keywords.length : ℚ) := by
  unfold keywordCandidate at h
  simp only at h
  split at h
  · rename_i hpos
    simp only [Option.some.injEq] at h
    subst h
    exact ⟨by exact_mod_cast hpos, rfl⟩
  · simp at h

end FAQBot

/-- C7: on an initialized bot, for any FAQ list (so for every list with at least one
entry), any keyword lists (empty ones included), any question and any behaviour of the
two pipelines (missing, throwing or answering), `findBestAnswer` returns without an
exception and `processQuestion` returns a response that is not the error response and
is one of: the no-match answer (fallback text,
confidence 0, ranked list empty), the answer built from the top-ranked candidate, or
the clarification over the first three ranked candidates. The keyword score is divided
by `faq.keywords.length` only under the guard `keywordScore > 0`, and under that guard
the divisor is positive; every emitted keyword score lies in (0, 1]. -/
theorem FAQBot.processQuestion_decides (bot : FAQBot) (userQuestion : String)
    (hinit : bot.isInitialized = true) :
    let ranked := FAQBot.rankCandidates (bot.collectCandidates (bot.rephraseQuestion userQuestion))
    (∃ result, bot.findBestAnswer (bot.rephraseQuestion userQuestion) = .ok result) ∧
    (bot.processQuestion userQuestion).type ≠ .error ∧
    ((bot.processQuestion userQuestion).type = .answer ∨
      (bot.processQuestion userQuestion).type = .clarification) ∧
    ((ranked = [] ∧
        bot.processQuestion userQuestion = FAQBot.formatAnswer FAQBot.getFallbackAnswer 0) ∨
      (∃ first, ranked.head? = some first ∧
        bot.processQuestion userQuestion =
          FAQBot.formatAnswer (Js.orString (some first.faq.answer) FAQBot.getFallbackAnswer)
            first.similarity) ∨
      (2 ≤ ranked.length ∧
        bot.processQuestion userQuestion = FAQBot.askForClarification (ranked.take 3))) ∧
    (∀ (questionLower : String) (faq : FAQ),
      (0 : ℚ) < ((FAQBot.matchedKeywords questionLower faq).length : ℚ) →
      faq.keywords.length ≠ 0) ∧
    (∀ (questionLower : String) (faq : FAQ) (c : Candidate),
      FAQBot.keywordCandidate questionLower faq = some c →
      0 < c.similarity ∧ c.similarity ≤ 1) := by
  intro ranked
  have hproc : bot.processQuestion userQuestion =
      FAQBot.respond (FAQBot.bestAnswerValue ranked) :=
    FAQBot.processQuestion_eq bot userQuestion hinit
  have hdiv : ∀ (questionLower : String) (faq : FAQ),
      (0 : ℚ) < ((FAQBot.matchedKeywords questionLower faq).length : ℚ) →
      faq.keywords.length ≠ 0 := by
    intro questionLower faq hpos
    have h1 : 0 < (FAQBot.matchedKeywords questionLower faq).length := by exact_mod_cast hpos
    have h2 := FAQBot.matchedKeywords_length_le questionLower faq
    omega
  refine ⟨⟨_, FAQBot.findBestAnswer_eq bot _⟩, ?_, ?_, ?_, hdiv, ?_⟩
  · rw [hproc]
    exact FAQBot.type_respond_ne_error _
  · have hne : (bot.processQuestion userQuestion).type ≠ .error := by
      rw [hproc]
      exact FAQBot.type_respond_ne_error _
    cases htype : (bot.processQuestion userQuestion).type with
    | answer => exact Or.inl rfl
    | clarification => exact Or.inr rfl
    | error => exact absurd htype hne
  · rw [hproc]
    exact FAQBot.respond_cases ranked
  · intro questionLower faq c hc
    obtain ⟨hpos, hsim⟩ := FAQBot.keywordCandidate_similarity hc
    have hle := FAQBot.matchedKeywords_length_le questionLower faq
    have hlen : (0 : ℚ) < (faq.keywords.length : ℚ) := by
      have : 0 < faq.keywords.length := by omega
      exact_mod_cast this
    have hposq : (0 : ℚ) < ((FAQBot.matchedKeywords questionLower faq).length : ℚ) := by
      exact_mod_cast hpos
    rw [hsim]
    refine ⟨div_pos hposq hlen, ?_⟩
    rw [div_le_one hlen]
    exact_mod_cast hle

/-- C7 at a concrete input: the bot whose pipelines throw on every call, asked
"refund?". -/
theorem FAQBot.processQuestion_decides_witness :
    failingPipelinesBot.isInitialized = true ∧
    (failingPipelinesBot.processQuestion "refund?").type ≠ .error :=
  ⟨rfl, (FAQBot.processQuestion_decides failingPipelinesBot "refund?" rfl).2.1⟩

/-! ## C9: the text similarity against the Jaccard index -/

namespace SimpleSimilarity

theorem getSimilarity_eq_jaccardSpec_of_nodup (text1 text2 : String)
    (h : (normalizeText text1).Nodup) :
    getSimilarity text1 text2 = jaccardSpec text1 text2 := by
  unfold getSimilarity jaccardSpec
  simp only
  have hunion : ((normalizeText text1).toFinset ∪ (normalizeText text2).toFinset).card =
      ((normalizeText text1 ++ normalizeText text2).dedup).length := by
    rw [← List.toFinset_append, List.card_toFinset]
  have hinter : ((normalizeText text1).toFinset ∩ (normalizeText text2).toFinset).card =
      ((normalizeText text1).filter (fun word => (normalizeText text2).contains word)).length := by
    rw [← List.toFinset_card_of_nodup (h.filter _)]
    congr 1
    ext word
    simp [List.mem_filter]
  rw [hunion, hinter]
  by_cases hzero : ((normalizeText text1 ++ normalizeText text2).dedup).length = 0
  · simp [hzero]
  · have hpos : ((normalizeText text1 ++ normalizeText text2).dedup).length > 0 := by omega
    simp [hzero, hpos]

end SimpleSimilarity

/-- C9 fails on the code: for "you have you have" against "Do you have a warranty?"
`getSimilarity` counts the four repeated tokens of the first text over a union of three
tokens and returns 4/3, while the Jaccard index of the two token sets is 2/3; the
score is above 1, and the bot in fallback mode reports it as the confidence of its
answer. -/
theorem SimpleSimilarity.getSimilarity_counts_repetitions :
    SimpleSimilarity.normalizeText "you have you have" = ["you", "have", "you", "have"] ∧
    SimpleSimilarity.normalizeText "Do you have a warranty?" = ["you", "have", "warranty"] ∧
    SimpleSimilarity.getSimilarity "you have you have" "Do you have a warranty?" = 4 / 3 ∧
    SimpleSimilarity.jaccardSpec "you have you have" "Do you have a warranty?" = 2 / 3 ∧
    ¬ (SimpleSimilarity.getSimilarity "you have you have" "Do you have a warranty?" ≤ 1) ∧
    fallbackBot.processQuestion "you have you have" =
      FAQBot.formatAnswer
        "Yes, all products come with a 1-year manufacturer warranty. Extended warranties are available for purchase."
        (4 / 3) := by
  have h1 : SimpleSimilarity.getSimilarity "you have you have" "Do you have a warranty?" = 4 / 3 := by
    decide!
  refine ⟨by decide, by decide, h1, by decide!, ?_, by decide!⟩
  rw [h1]
  norm_num

/-! ## C10: the tokens of `normalizeText` -/

namespace Js

theorem filter_splitScan (P : List Char → Bool) (hP : P [] = false) (cs : List Char) :
    ∀ (inRun : Bool) (cur : List Char), (inRun = true → cur = []) →
      (splitScan inRun cs cur).filter P =
        ((cs.splitOnP isWhiteSpace).modifyHead (fun piece => cur.reverse ++ piece)).filter P := by
  induction cs with
  | nil =>
    intro inRun cur _
    simp [splitScan, List.splitOnP_nil, List.modifyHead]
  | cons c rest ih =>
    intro inRun cur hrun
    rw [List.splitOnP_cons]
    by_cases hws : isWhiteSpace c = true
    · rw [if_pos hws]
      have hnil := ih true [] (fun _ => rfl)
      have hid : (fun piece : List Char => ([] : List Char).reverse ++ piece) = id := by
        funext piece
        simp
      have hmod : ∀ l : List (List Char), l.modifyHead id = l := by
        intro l
        cases l <;> rfl
      rw [hid, hmod] at hnil
      cases inRun with
      | true =>
        have hcur := hrun rfl
        subst hcur
        simp [splitScan, hws, hnil, List.modifyHead, List.filter_cons, hP]
      | false =>
        simp [splitScan, hws, hnil, List.modifyHead, List.filter_cons]
    · rw [if_neg hws]
      have hws2 : isWhiteSpace c = false := by simpa using hws
      have hstep := ih false (c :: cur) (fun h => absurd h (by decide))
      rw [splitScan]
      simp only [hws2, Bool.false_eq_true, if_false]
      rw [hstep, List.modifyHead_modifyHead]
      congr 2
      funext piece
      simp

theorem mem_splitScan (P : Char → Prop) (cs : List Char) :
    ∀ (inRun : Bool) (cur : List Char), (∀ c ∈ cur, P c) →
      (∀ c ∈ cs, isWhiteSpace c = false → P c) →
      ∀ piece ∈ splitScan inRun cs cur, ∀ c ∈ piece, P c := by
  induction cs with
  | nil =>
    intro inRun cur hcur _ piece hpiece c hc
    simp only [splitScan, List.mem_singleton] at hpiece
    subst hpiece
    exact hcur c (List.mem_reverse.mp hc)
  | cons d rest ih =>
    intro inRun cur hcur hcs piece hpiece c hc
    have hrest : ∀ c ∈ rest, isWhiteSpace c = false → P c :=
      fun c hc => hcs c (List.mem_cons_of_mem _ hc)
    rw [splitScan] at hpiece
    by_cases hws : isWhiteSpace d = true
    · rw [if_pos hws] at hpiece
      have hnil : ∀ c ∈ ([] : List Char), P c := fun _ h => absurd h (List.not_mem_nil _)
      cases inRun with
      | true =>
        simp only [if_true] at hpiece
        exact ih true [] hnil hrest piece hpiece c hc
      | false =>
        simp only [Bool.false_eq_true, if_false, List.mem_cons] at hpiece
        rcases hpiece with rfl | hpiece
        · exact hcur c (List.mem_reverse.mp hc)
        · exact ih true [] hnil hrest piece hpiece c hc
    · rw [if_neg hws] at hpiece
      have hws2 : isWhiteSpace d = false := by simpa using hws
      refine ih false (d :: cur) ?_ hrest piece hpiece c hc
      intro e he
      rcases List.mem_cons.mp he with rfl | he
      · exact hcs _ (List.mem_cons_self _ _) hws2
      · exact hcur e he

theorem toNat_ofNat_add_32 (n : Nat) (h : 0x41 ≤ n ∧ n ≤ 0x5A) :
    (Char.ofNat (n + 32)).toNat = n + 32 := by
  obtain ⟨h1, h2⟩ := h
  interval_cases n <;> rfl

theorem toNat_ofNat_cases (m : Nat) : (Char.ofNat m).toNat = m ∨ (Char.ofNat m).toNat = 0 := by
  unfold Char.ofNat
  split
  · exact Or.inl rfl
  · exact Or.inr rfl

theorem lowercaseRules_images : ∀ rule ∈ lowercaseRules, 0x5A < rule.2.2.2 := by
  decide!

theorem lowerCode_image (n : Nat) (rules : List (Nat × Nat × Nat × Nat))
    (hrules : ∀ rule ∈ rules, 0x5A < rule.2.2.2) {image : Nat}
    (h : lowerCode n rules = some image) : 0x5A < image := by
  induction rules with
  | nil => simp [lowerCode] at h
  | cons rule rest ih =>
    obtain ⟨first, last, step, target⟩ := rule
    rw [lowerCode] at h
    split at h
    · simp at h
    · split at h
      · simp only [Option.some.injEq] at h
        have := hrules (first, last, step, target) (List.mem_cons_self _ _)
        simp only at this
        omega
      · exact ih (fun rule hrule => hrules rule (List.mem_cons_of_mem _ hrule)) h

theorem not_upper_ofNat {m : Nat} (h : 0x5A < m) :
    ¬ (0x41 ≤ (Char.ofNat m).toNat ∧ (Char.ofNat m).toNat ≤ 0x5A) := by
  rcases toNat_ofNat_cases m with h1 | h1 <;> rw [h1] <;> omega

theorem not_upper_of_mem_lowerChar {c d : Char} (h : d ∈ lowerChar c) :
    ¬ (0x41 ≤ d.toNat ∧ d.toNat ≤ 0x5A) := by
  unfold lowerChar at h
  simp only at h
  split at h
  · split at h
    · rename_i hup
      rw [List.mem_singleton] at h
      subst h
      rw [toNat_ofNat_add_32 _ hup]
      omega
    · rw [List.mem_singleton] at h
      subst h
      assumption
  · split at h
    · simp only [List.mem_cons, List.mem_singleton, List.not_mem_nil, or_false] at h
      rcases h with rfl | rfl <;> decide
    · split at h
      · rename_i image himage
        rw [List.mem_singleton] at h
        subst h
        exact not_upper_ofNat (lowerCode_image _ _ lowercaseRules_images himage)
      · rw [List.mem_singleton] at h
        subst h
        omega

theorem not_upper_of_mem_lowerScan (cs : List Char) :
    ∀ (afterCased : Bool) (d : Char), d ∈ lowerScan afterCased cs →
      ¬ (0x41 ≤ d.toNat ∧ d.toNat ≤ 0x5A) := by
  induction cs with
  | nil =>
    intro afterCased d h
    simp [lowerScan] at h
  | cons c rest ih =>
    intro afterCased d h
    rw [lowerScan, List.mem_append] at h
    rcases h with h | h
    · split at h
      · split at h
        · rw [List.mem_singleton] at h
          subst h
          decide
        · rw [List.mem_singleton] at h
          subst h
          decide
      · exact not_upper_of_mem_lowerChar h
    · exact ih _ d h

theorem not_upper_of_mem_toLowerCase {s : String} {d : Char} (h : d ∈ (toLowerCase s).data) :
    ¬ (0x41 ≤ d.toNat ∧ d.toNat ≤ 0x5A) :=
  not_upper_of_mem_lowerScan s.data false d h

theorem eq_underscore_of_toNat {c : Char} (h : c.toNat = 0x5F) : c = '_' := by
  rw [← Char.ofNat_toNat c, h]

end Js

/-- C10 as stated fails: the underscore is a word character of `/[^\w\s]/`, so it is
not stripped; "foo_bar" is returned as the one token "foo_bar", which contains a
character that is neither a small letter nor a digit, whereas stripping everything
that is not alphanumeric or whitespace gives "foobar". -/
theorem SimpleSimilarity.normalizeText_keeps_underscore :
    SimpleSimilarity.normalizeText "foo_bar" = ["foo_bar"] ∧
    SimpleSimilarity.normalizeTextSpec Js.isAlphanumeric "foo_bar" = ["foobar"] ∧
    ¬ (∀ word ∈ SimpleSimilarity.normalizeText "foo_bar", ∀ c ∈ word.data,
        Js.isLowerLetter c = true ∨ Js.isDigit c = true) := by
  refine ⟨by decide, by decide, ?_⟩
  intro h
  have h1 : SimpleSimilarity.normalizeText "foo_bar" = ["foo_bar"] := by decide
  have h2 := h "foo_bar" (by rw [h1]; exact List.mem_singleton.mpr rfl) '_' (by decide)
  revert h2
  decide

/-- C10, amended: `normalizeText` returns, in order, the whitespace-separated tokens of
the lowercased text after removal of every character that is neither a word character
(ASCII letter, digit or underscore) nor whitespace, keeping the tokens of length
greater than 2; every returned token is longer than 2 and consists solely of small
ASCII letters, digits and underscores; the empty text yields the empty sequence. -/
theorem SimpleSimilarity.normalizeText_tokens (text : String) :
    SimpleSimilarity.normalizeText text =
        SimpleSimilarity.normalizeTextSpec Js.isWordChar text ∧
    (∀ word ∈ SimpleSimilarity.normalizeText text,
      2 < word.length ∧
      ∀ c ∈ word.data, Js.isLowerLetter c = true ∨ Js.isDigit c = true ∨ c = '_') ∧
    SimpleSimilarity.normalizeText "" = [] := by
  refine ⟨?_, ?_, by decide⟩
  · unfold SimpleSimilarity.normalizeText SimpleSimilarity.normalizeTextSpec Js.splitWhitespace
    have h := Js.filter_splitScan (fun word => decide (2 < word.length)) (by decide)
      ((Js.toLowerCase text).data.filter (fun c => Js.isWordChar c || Js.isWhiteSpace c))
      false [] (fun h => absurd h (by decide))
    have hid : (fun piece : List Char => ([] : List Char).reverse ++ piece) = id := by
      funext piece
      simp
    have hmod : ∀ l : List (List Char), l.modifyHead id = l := by
      intro l
      cases l <;> rfl
    rw [hid, hmod] at h
    have hgt : (fun word : List Char => decide (word.length > 2)) =
        (fun word : List Char => decide (2 < word.length)) := rfl
    rw [hgt, h]
  · intro word hword
    unfold SimpleSimilarity.normalizeText Js.splitWhitespace at hword
    rw [List.mem_map] at hword
    obtain ⟨piece, hpiece, rfl⟩ := hword
    rw [List.mem_filter] at hpiece
    obtain ⟨hmem, hlen⟩ := hpiece
    refine ⟨by simpa [String.length] using hlen, ?_⟩
    intro c hc
    have hprop := Js.mem_splitScan
      (fun c => Js.isWordChar c = true ∧ ¬ (0x41 ≤ c.toNat ∧ c.toNat ≤ 0x5A))
      ((Js.toLowerCase text).data.filter (fun c => Js.isWordChar c || Js.isWhiteSpace c))
      false [] (fun _ h => absurd h (List.not_mem_nil _))
      (by
        intro d hd hws
        rw [List.mem_filter] at hd
        obtain ⟨hd1, hd2⟩ := hd
        refine ⟨?_, Js.not_upper_of_mem_toLowerCase hd1⟩
        simpa [hws] using hd2)
      piece hmem c hc
    obtain ⟨hw, hup⟩ := hprop
    simp only [Js.isWordChar, Bool.or_eq_true, Bool.and_eq_true, decide_eq_true_eq,
      beq_iff_eq] at hw
    simp only [Js.isLowerLetter, Js.isDigit, Bool.and_eq_true, decide_eq_true_eq]
    rcases hw with ((hw | hw) | hw) | hw
    · exact absurd hw hup
    · exact Or.inl hw
    · exact Or.inr (Or.inl hw)
    · exact Or.inr (Or.inr (Js.eq_underscore_of_toNat hw))

/-! ## C11: the keyword strategy -/

namespace Js

theorem includesChars_iff (s sub : List Char) : includesChars s sub = true ↔ sub <:+: s := by
  induction s with
  | nil =>
    rw [includesChars, List.infix_nil]
    exact List.isEmpty_iff
  | cons c cs ih =>
    rw [includesChars, Bool.or_eq_true, List.isPrefixOf_iff_prefix, ih, List.infix_cons_iff]

theorem includes_iff (question keyword : String) :
    includes (toLowerCase question) (toLowerCase keyword) = true ↔
      occursLowercased keyword question :=
  includesChars_iff _ _

theorem lowerChar_of_ascii {c : Char} (h : c.toNat < 0x80) : lowerChar c = [asciiLower c] := by
  unfold lowerChar asciiLower
  simp only [h, if_true]
  split <;> rfl

theorem lowerScan_of_ascii (cs : List Char) (h : ∀ c ∈ cs, c.toNat < 0x80) :
    ∀ afterCased : Bool, lowerScan afterCased cs = cs.map asciiLower := by
  induction cs with
  | nil =>
    intro afterCased
    rfl
  | cons c rest ih =>
    intro afterCased
    have hc : c.toNat < 0x80 := h c (List.mem_cons_self _ _)
    have hsigma : ¬ c.toNat = 0x03A3 := by omega
    rw [lowerScan, if_neg hsigma, lowerChar_of_ascii hc,
      ih (fun d hd => h d (List.mem_cons_of_mem _ hd))]
    rfl

theorem toLowerCase_of_ascii {s : String} (h : isAsciiText s) :
    (toLowerCase s).data = s.data.map asciiLower :=
  lowerScan_of_ascii s.data h false

theorem eq_of_toNat_eq {c d : Char} (h : c.toNat = d.toNat) : c = d := by
  rw [← Char.ofNat_toNat c, ← Char.ofNat_toNat d, h]

theorem asciiLower_eq_iff (c d : Char) : asciiLower c = asciiLower d ↔ sameLetter c d := by
  unfold asciiLower sameLetter
  by_cases hc : 0x41 ≤ c.toNat ∧ c.toNat ≤ 0x5A
  · by_cases hd : 0x41 ≤ d.toNat ∧ d.toNat ≤ 0x5A
    · rw [if_pos hc, if_pos hd]
      constructor
      · intro h
        have h2 := congrArg Char.toNat h
        rw [toNat_ofNat_add_32 _ hc, toNat_ofNat_add_32 _ hd] at h2
        exact Or.inl (eq_of_toNat_eq (by omega))
      · rintro (h | h | h)
        · rw [h]
        · omega
        · omega
    · rw [if_pos hc, if_neg hd]
      constructor
      · intro h
        have h2 := congrArg Char.toNat h
        rw [toNat_ofNat_add_32 _ hc] at h2
        exact Or.inr (Or.inl ⟨hc.1, hc.2, h2.symm⟩)
      · rintro (h | h | h)
        · rw [h] at hc
          exact absurd hc hd
        · apply eq_of_toNat_eq
          rw [toNat_ofNat_add_32 _ hc]
          exact h.2.2.symm
        · exact absurd ⟨h.1, h.2.1⟩ hd
  · by_cases hd : 0x41 ≤ d.toNat ∧ d.toNat ≤ 0x5A
    · rw [if_neg hc, if_pos hd]
      constructor
      · intro h
        have h2 := congrArg Char.toNat h
        rw [toNat_ofNat_add_32 _ hd] at h2
        exact Or.inr (Or.inr ⟨hd.1, hd.2, h2⟩)
      · rintro (h | h | h)
        · rw [h] at hc
          exact absurd hd hc
        · exact absurd ⟨h.1, h.2.1⟩ hc
        · apply eq_of_toNat_eq
          rw [toNat_ofNat_add_32 _ hd]
          exact h.2.2
    · rw [if_neg hc, if_neg hd]
      constructor
      · exact fun h => Or.inl h
      · rintro (h | h | h)
        · exact h
        · exact absurd ⟨h.1, h.2.1⟩ hc
        · exact absurd ⟨h.1, h.2.1⟩ hd

theorem map_asciiLower_eq_iff (keyword part : List Char) :
    keyword.map asciiLower = part.map asciiLower ↔ List.Forall₂ sameLetter keyword part := by
  rw [← List.forall₂_eq_eq_eq, List.forall₂_map_left_iff, List.forall₂_map_right_iff]
  constructor
  · intro h
    exact h.imp (fun _ _ hcd => (asciiLower_eq_iff _ _).mp hcd)
  · intro h
    exact h.imp (fun _ _ hcd => (asciiLower_eq_iff _ _).mpr hcd)

theorem occursLowercased_iff_of_ascii {keyword query : String}
    (hkeyword : isAsciiText keyword) (hquery : isAsciiText query) :
    occursLowercased keyword query ↔ occursIgnoringCase keyword query := by
  unfold occursLowercased occursIgnoringCase
  rw [toLowerCase_of_ascii hkeyword, toLowerCase_of_ascii hquery, List.isInfix_map_iff]
  constructor
  · rintro ⟨part, hpart, heq⟩
    exact ⟨part, hpart, (map_asciiLower_eq_iff _ _).mp heq⟩
  · rintro ⟨part, hpart, hsame⟩
    exact ⟨part, hpart, (map_asciiLower_eq_iff _ _).mpr hsame⟩

end Js

namespace FAQBot

theorem matchedKeywords_eq (question : String) (faq : FAQ) :
    matchedKeywords (Js.toLowerCase question) faq =
      faq.keywords.filter (fun keyword => decide (Js.occursLowercased keyword question)) := by
  unfold matchedKeywords
  apply List.filter_congr
  intro keyword _
  rw [Bool.eq_iff_iff, Js.includes_iff, decide_eq_true_eq]

theorem keywordCandidate_eq_some_iff (questionLower : String) (faq : FAQ) (c : Candidate) :
    keywordCandidate questionLower faq = some c ↔
      0 < (matchedKeywords questionLower faq).length ∧
      c = { faq := faq
            similarity :=
              ((matchedKeywords questionLower faq).length : ℚ) / (faq.keywords.length : ℚ)
            type := .keyword
            matchedKeywords := some (matchedKeywords questionLower faq) } := by
  unfold keywordCandidate
  simp only
  by_cases h : (0 : ℚ) < ((matchedKeywords questionLower faq).length : ℚ)
  · have h2 : 0 < (matchedKeywords questionLower faq).length := by exact_mod_cast h
    rw [if_pos h]
    simp only [Option.some.injEq, h2, true_and]
    exact eq_comm
  · have h2 : ¬ 0 < (matchedKeywords questionLower faq).length := by
      intro h3
      exact h (by exact_mod_cast h3)
    rw [if_neg h]
    simp [h2]

theorem keywordCandidate_isSome_iff (question : String) (faq : FAQ) :
    (∃ c, keywordCandidate (Js.toLowerCase question) faq = some c) ↔
      ∃ keyword ∈ faq.keywords, Js.occursLowercased keyword question := by
  constructor
  · rintro ⟨c, hc⟩
    have hpos := ((keywordCandidate_eq_some_iff _ _ _).mp hc).1
    rw [matchedKeywords_eq] at hpos
    obtain ⟨keyword, hmem⟩ := List.exists_mem_of_length_pos hpos
    rw [List.mem_filter, decide_eq_true_eq] at hmem
    exact ⟨keyword, hmem.1, hmem.2⟩
  · rintro ⟨keyword, hmem, hsub⟩
    have hpos : 0 < (matchedKeywords (Js.toLowerCase question) faq).length := by
      rw [matchedKeywords_eq]
      refine List.length_pos_of_mem (?_ : keyword ∈ _)
      rw [List.mem_filter, decide_eq_true_eq]
      exact ⟨hmem, hsub⟩
    exact ⟨_, (keywordCandidate_eq_some_iff _ _ _).mpr ⟨hpos, rfl⟩⟩

theorem refund_scenario :
    fallbackBot.processQuestion "Can I get a refund" =
      formatAnswer returnPolicyFAQ.answer (1 / 5) ∧
    keywordCandidate (Js.toLowerCase "Can I get a refund") warrantyFAQ = none := by
  decide!

theorem street_lowercased :
    Js.toLowerCase "ΟΔΟΣ" = "οδος" ∧ Js.toLowerCase "ΟΔΟΣΗΜΑΝΣΗ" = "οδοσημανση" := by
  decide

theorem cafe_occurs : Js.occursLowercased "CAFÉ" "un café" := by
  decide

theorem paypal_occurs : Js.occursIgnoringCase "PayPal" "do you take PAYPAL" :=
  ⟨"PAYPAL".data, by decide,
    .cons (Or.inl rfl) (.cons (Or.inr (Or.inr (by decide)))
      (.cons (Or.inr (Or.inr (by decide))) (.cons (Or.inl rfl)
        (.cons (Or.inr (Or.inr (by decide))) (.cons (Or.inr (Or.inr (by decide))) .nil)))))⟩

end FAQBot

/-- C11 as stated fails: the keyword "ΟΔΟΣ" is a literal substring of the query
"ΟΔΟΣΗΜΑΝΣΗ", hence a case-insensitive one, but `toLowerCase` turns the capital
sigma at the end of the keyword into the final small sigma and the one inside the
query into the small sigma, so `includes` finds nothing and the keyword loop emits no
candidate for the entry. -/
theorem FAQBot.keyword_literal_substring_missed :
    "ΟΔΟΣ" ∈ streetFAQ.keywords ∧
    "ΟΔΟΣ".data <:+: "ΟΔΟΣΗΜΑΝΣΗ".data ∧
    Js.occursIgnoringCase "ΟΔΟΣ" "ΟΔΟΣΗΜΑΝΣΗ" ∧
    Js.toLowerCase "ΟΔΟΣ" = "οδος" ∧
    Js.toLowerCase "ΟΔΟΣΗΜΑΝΣΗ" = "οδοσημανση" ∧
    FAQBot.keywordCandidate (Js.toLowerCase "ΟΔΟΣΗΜΑΝΣΗ") streetFAQ = none ∧
    ¬ ∃ c ∈ storeBot.keywordCandidates "ΟΔΟΣΗΜΑΝΣΗ", c.faq = streetFAQ := by
  have hnone : FAQBot.keywordCandidate (Js.toLowerCase "ΟΔΟΣΗΜΑΝΣΗ") streetFAQ = none := by
    decide!
  have hall : storeBot.keywordCandidates "ΟΔΟΣΗΜΑΝΣΗ" = [] := by
    decide!
  refine ⟨by decide, by decide, ⟨"ΟΔΟΣ".data, by decide, ?_⟩,
    FAQBot.street_lowercased.1, FAQBot.street_lowercased.2, hnone, ?_⟩
  · exact .cons (Or.inl rfl) (.cons (Or.inl rfl) (.cons (Or.inl rfl) (.cons (Or.inl rfl) .nil)))
  · rintro ⟨c, hc, -⟩
    rw [hall] at hc
    exact absurd hc (List.not_mem_nil c)

/-- C11, amended: for every entry and query, the keyword loop of `findBestAnswer` emits a
candidate for the entry exactly when, for one of its keywords, the lowercased keyword
occurs in the lowercased query; for a keyword and a query of ASCII characters that is
the case exactly when the keyword is a case-insensitive substring of the query. The
candidate carries the entry, the tag `keyword`, as `matchedKeywords` the keywords that
matched, in keyword-list order, and as score their number divided by the number of
keywords of the entry, which lies in (0, 1]. -/
theorem FAQBot.keyword_strategy (bot : FAQBot) (question : String) (faq : FAQ) :
    ((∃ c, FAQBot.keywordCandidate (Js.toLowerCase question) faq = some c) ↔
      ∃ keyword ∈ faq.keywords, Js.occursLowercased keyword question) ∧
    (∀ keyword, Js.isAsciiText keyword → Js.isAsciiText question →
      (Js.occursLowercased keyword question ↔ Js.occursIgnoringCase keyword question)) ∧
    ((∀ keyword ∈ faq.keywords, Js.isAsciiText keyword) → Js.isAsciiText question →
      ((∃ c, FAQBot.keywordCandidate (Js.toLowerCase question) faq = some c) ↔
        ∃ keyword ∈ faq.keywords, Js.occursIgnoringCase keyword question)) ∧
    (∀ c, FAQBot.keywordCandidate (Js.toLowerCase question) faq = some c →
      c.faq = faq ∧ c.type = .keyword ∧
      c.matchedKeywords = some (faq.keywords.filter
        (fun keyword => decide (Js.occursLowercased keyword question))) ∧
      (faq.keywords.filter
        (fun keyword => decide (Js.occursLowercased keyword question))).Sublist
          faq.keywords ∧
      c.similarity =
        ((faq.keywords.filter
          (fun keyword => decide (Js.occursLowercased keyword question))).length : ℚ) /
          (faq.keywords.length : ℚ) ∧
      0 < c.similarity ∧ c.similarity ≤ 1) ∧
    (faq ∈ bot.faqs →
      ((∃ c ∈ bot.keywordCandidates question, c.faq = faq) ↔
        ∃ keyword ∈ faq.keywords, Js.occursLowercased keyword question)) := by
  have hiff := FAQBot.keywordCandidate_isSome_iff question faq
  refine ⟨hiff, fun keyword hkeyword hquestion =>
    Js.occursLowercased_iff_of_ascii hkeyword hquestion, ?_, ?_, ?_⟩
  · intro hkeywords hquestion
    rw [hiff]
    constructor
    · rintro ⟨keyword, hmem, hoccurs⟩
      exact ⟨keyword, hmem,
        (Js.occursLowercased_iff_of_ascii (hkeywords keyword hmem) hquestion).mp hoccurs⟩
    · rintro ⟨keyword, hmem, hoccurs⟩
      exact ⟨keyword, hmem,
        (Js.occursLowercased_iff_of_ascii (hkeywords keyword hmem) hquestion).mpr hoccurs⟩
  · intro c hc
    obtain ⟨hpos, hceq⟩ := (FAQBot.keywordCandidate_eq_some_iff _ _ _).mp hc
    have hle := FAQBot.matchedKeywords_length_le (Js.toLowerCase question) faq
    rw [FAQBot.matchedKeywords_eq] at hpos hle hceq
    have hlen : (0 : ℚ) < (faq.keywords.length : ℚ) := by
      have : 0 < faq.keywords.length := by omega
      exact_mod_cast this
    subst hceq
    refine ⟨rfl, rfl, rfl, List.filter_sublist _, rfl, ?_, ?_⟩
    · exact div_pos (by exact_mod_cast hpos) hlen
    · show _ / _ ≤ (1 : ℚ)
      rw [div_le_one hlen]
      exact_mod_cast hle
  · intro hfaq
    rw [← hiff]
    constructor
    · rintro ⟨c, hc, hcfaq⟩
      unfold FAQBot.keywordCandidates at hc
      rw [List.mem_filterMap] at hc
      obtain ⟨entry, -, hentry⟩ := hc
      have hceq := ((FAQBot.keywordCandidate_eq_some_iff _ _ _).mp hentry).2
      have hsame : entry = faq := by
        rw [← hcfaq, hceq]
      rw [hsame] at hentry
      exact ⟨c, hentry⟩
    · rintro ⟨c, hc⟩
      refine ⟨c, ?_, ?_⟩
      · unfold FAQBot.keywordCandidates
        rw [List.mem_filterMap]
        exact ⟨faq, hfaq, hc⟩
      · rw [((FAQBot.keywordCandidate_eq_some_iff _ _ _).mp hc).2]

/-- C11, amended, at concrete inputs: the entry with the keywords "CAFÉ" and "PayPal".
The query "un café" matches the first keyword through the lowercasing of the accented
capital; the ASCII query "do you take PAYPAL" matches the second, which is a
case-insensitive substring of it. -/
theorem FAQBot.keyword_strategy_witness :
    (cafeFAQ ∈ storeBot.faqs ∧ Js.occursLowercased "CAFÉ" "un café" ∧
      ∃ c ∈ storeBot.keywordCandidates "un café", c.faq = cafeFAQ) ∧
    (Js.isAsciiText "PayPal" ∧ Js.isAsciiText "do you take PAYPAL" ∧
      Js.occursIgnoringCase "PayPal" "do you take PAYPAL" ∧
      Js.occursLowercased "PayPal" "do you take PAYPAL" ∧
      ∃ c ∈ storeBot.keywordCandidates "do you take PAYPAL", c.faq = cafeFAQ) :=
  ⟨⟨by decide, FAQBot.cafe_occurs,
      ((FAQBot.keyword_strategy storeBot "un café" cafeFAQ).2.2.2.2 (by decide)).mpr
        ⟨"CAFÉ", by decide, FAQBot.cafe_occurs⟩⟩,
    by decide, by decide, FAQBot.paypal_occurs,
    ((FAQBot.keyword_strategy storeBot "do you take PAYPAL" cafeFAQ).2.1 "PayPal"
      (by decide) (by decide)).mpr FAQBot.paypal_occurs,
    ((FAQBot.keyword_strategy storeBot "do you take PAYPAL" cafeFAQ).2.2.2.2 (by decide)).mpr
      ⟨"PayPal", by decide,
        ((FAQBot.keyword_strategy storeBot "do you take PAYPAL" cafeFAQ).2.1 "PayPal"
          (by decide) (by decide)).mpr FAQBot.paypal_occurs⟩⟩

/-! ## C12: when the fallback text is the answer -/

namespace FAQBot

theorem answer_bestAnswerValue_nil : (bestAnswerValue []).answer = getFallbackAnswer := rfl

theorem answer_bestAnswerValue_cons (first : Candidate) (rest : List Candidate) :
    (bestAnswerValue (first :: rest)).answer =
      if first.faq.answer = "" then getFallbackAnswer else first.faq.answer := rfl

theorem loadFAQs_answers_proper :
    ∀ faq ∈ loadFAQs, faq.answer ≠ "" ∧ faq.answer ≠ getFallbackAnswer := by
  decide

theorem giftCard_ranked :
    rankCandidates (giftCardBot.collectCandidates "gift card") =
      [{ faq := giftCardFAQ, similarity := 1, type := .keyword,
         matchedKeywords := some ["gift card"] }] := by
  decide!

end FAQBot

/-- C12 as stated fails: for the FAQ set of one entry with the empty answer and the
query "gift card", the ranked list holds that entry (keyword score 1), yet the answer
returned by `findBestAnswer` is the fallback text, not the answer text of the
top-ranked entry. -/
theorem FAQBot.fallback_with_candidate :
    ∃ first result,
      FAQBot.rankCandidates (giftCardBot.collectCandidates "gift card") = [first] ∧
      giftCardBot.findBestAnswer "gift card" = .ok result ∧
      result.answer = FAQBot.getFallbackAnswer ∧
      result.answer ≠ first.faq.answer := by
  refine ⟨_, _, FAQBot.giftCard_ranked, FAQBot.findBestAnswer_eq giftCardBot "gift card", ?_, ?_⟩
  · rw [FAQBot.giftCard_ranked]
    rfl
  · rw [FAQBot.giftCard_ranked]
    decide

/-- C12, amended: `findBestAnswer` returns; on an empty ranked list its answer is the
fallback text; on a non-empty one it is the answer text of the top-ranked entry when
that text is non-empty, and the fallback text when it is the empty string. So the
fallback text is the answer exactly when the list is empty or the top answer is empty
or is the fallback text itself; for an FAQ set whose answers are non-empty and differ
from the fallback text, exactly when the list is empty. -/
theorem FAQBot.fallback_answer (bot : FAQBot) (question : String) :
    let ranked := FAQBot.rankCandidates (bot.collectCandidates question)
    ∃ result, bot.findBestAnswer question = .ok result ∧
      (ranked = [] → result.answer = FAQBot.getFallbackAnswer) ∧
      (∀ first rest, ranked = first :: rest →
        (first.faq.answer ≠ "" → result.answer = first.faq.answer) ∧
        (first.faq.answer = "" → result.answer = FAQBot.getFallbackAnswer)) ∧
      (result.answer = FAQBot.getFallbackAnswer ↔
        ranked = [] ∨ ∃ first rest, ranked = first :: rest ∧
          (first.faq.answer = "" ∨ first.faq.answer = FAQBot.getFallbackAnswer)) ∧
      ((∀ faq ∈ bot.faqs, faq.answer ≠ "" ∧ faq.answer ≠ FAQBot.getFallbackAnswer) →
        (result.answer = FAQBot.getFallbackAnswer ↔ ranked = [])) := by
  intro ranked
  have hiff : (FAQBot.bestAnswerValue ranked).answer = FAQBot.getFallbackAnswer ↔
      ranked = [] ∨ ∃ first rest, ranked = first :: rest ∧
        (first.faq.answer = "" ∨ first.faq.answer = FAQBot.getFallbackAnswer) := by
    cases hranked : ranked with
    | nil => simp [FAQBot.answer_bestAnswerValue_nil]
    | cons first rest =>
      rw [FAQBot.answer_bestAnswerValue_cons]
      by_cases hempty : first.faq.answer = ""
      · simp [hempty]
      · simp [hempty]
  refine ⟨_, FAQBot.findBestAnswer_eq bot question, ?_, ?_, hiff, ?_⟩
  · intro h
    show (FAQBot.bestAnswerValue ranked).answer = _
    rw [h]
    rfl
  · intro first rest h
    have hanswer : (FAQBot.bestAnswerValue ranked).answer =
        if first.faq.answer = "" then FAQBot.getFallbackAnswer else first.faq.answer := by
      rw [h]
      rfl
    refine ⟨fun hne => ?_, fun heq => ?_⟩
    · rw [hanswer, if_neg hne]
    · rw [hanswer, if_pos heq]
  · intro hproper
    rw [hiff]
    constructor
    · rintro (h | ⟨first, rest, h, hbad⟩)
      · exact h
      · have hmem : first ∈ ranked := by
          rw [h]
          exact List.mem_cons_self _ _
        have hfaq := hproper _
          (FAQBot.faq_mem_of_mem_collectCandidates (FAQBot.mem_rankCandidates hmem))
        rcases hbad with hbad | hbad
        · exact absurd hbad hfaq.1
        · exact absurd hbad hfaq.2
    · exact fun h => Or.inl h

/-- C12, amended, at a concrete input: the embedded FAQ list, whose answers are
non-empty and differ from the fallback text, and the question "refund". -/
theorem FAQBot.fallback_answer_witness :
    (∀ faq ∈ fallbackBot.faqs, faq.answer ≠ "" ∧ faq.answer ≠ FAQBot.getFallbackAnswer) ∧
    ∃ result, fallbackBot.findBestAnswer "refund" = .ok result ∧
      (result.answer = FAQBot.getFallbackAnswer ↔
        FAQBot.rankCandidates (fallbackBot.collectCandidates "refund") = []) := by
  refine ⟨FAQBot.loadFAQs_answers_proper, ?_⟩
  obtain ⟨result, hresult, -, -, -, hproper⟩ := FAQBot.fallback_answer fallbackBot "refund"
  exact ⟨result, hresult, hproper FAQBot.loadFAQs_answers_proper⟩

/-! ## C13: the decision of the command-line entry point -/

namespace Cli

theorem foldl_max_spec (rest : List ℚ) (score : ℚ) :
    score ≤ rest.foldl max score ∧ (∀ x ∈ rest, x ≤ rest.foldl max score) ∧
    (rest.foldl max score = score ∨ rest.foldl max score ∈ rest) := by
  induction rest generalizing score with
  | nil => simp
  | cons y rest ih =>
    obtain ⟨h1, h2, h3⟩ := ih (max score y)
    rw [List.foldl_cons]
    refine ⟨le_trans (le_max_left _ _) h1, ?_, ?_⟩
    · intro x hx
      rcases List.mem_cons.mp hx with rfl | hx
      · exact le_trans (le_max_right _ _) h1
      · exact h2 x hx
    · rcases h3 with h3 | h3
      · rw [h3]
        rcases max_choice score y with h | h
        · exact Or.inl h
        · exact Or.inr (by rw [h]; exact List.mem_cons_self _ _)
      · exact Or.inr (List.mem_cons_of_mem _ h3)

theorem mathMax_spec {scores : List ℚ} (hne : scores ≠ []) :
    ∃ m, mathMax scores = some m ∧ m ∈ scores ∧ ∀ s ∈ scores, s ≤ m := by
  cases scores with
  | nil => exact absurd rfl hne
  | cons score rest =>
    obtain ⟨h1, h2, h3⟩ := foldl_max_spec rest score
    refine ⟨_, rfl, ?_, ?_⟩
    · rcases h3 with h3 | h3
      · rw [h3]
        exact List.mem_cons_self _ _
      · exact List.mem_cons_of_mem _ h3
    · intro s hs
      rcases List.mem_cons.mp hs with rfl | hs
      · exact h1
      · exact h2 s hs

theorem indexOfFrom_of_mem {x : ℚ} {scores : List ℚ} (hx : x ∈ scores) (start : Nat) :
    ∃ k, k < scores.length ∧ indexOfFrom x start scores = ((start + k : Nat) : Int) ∧
      scores.get? k = some x ∧ ∀ j, j < k → scores.get? j ≠ some x := by
  induction scores generalizing start with
  | nil => exact absurd hx (List.not_mem_nil _)
  | cons score rest ih =>
    by_cases hs : score = x
    · refine ⟨0, by simp, ?_, by simp [hs], fun j hj => absurd hj (Nat.not_lt_zero j)⟩
      simp [indexOfFrom, hs]
    · have hrest : x ∈ rest := by
        rcases List.mem_cons.mp hx with h | h
        · exact absurd h.symm hs
        · exact h
      obtain ⟨k, hk, hidx, hget, hfirst⟩ := ih hrest (start + 1)
      refine ⟨k + 1, by simpa using hk, ?_, by simpa using hget, ?_⟩
      · rw [indexOfFrom, if_neg hs, hidx]
        congr 1
        omega
      · intro j hj
        cases j with
        | zero => simpa using hs
        | succ j => simpa using hfirst j (by omega)

theorem length_closeMatchesFrom (start : Nat) (scores : List ℚ) :
    (closeMatchesFrom start scores).length =
      (scores.filter (fun score => decide (score > 55 / 100))).length := by
  induction scores generalizing start with
  | nil => rfl
  | cons score rest ih =>
    rw [closeMatchesFrom]
    by_cases h : score > 55 / 100
    · simp [h, ih]
    · simp [h, ih]

theorem optionsOf_closeMatchesFrom (scores : List ℚ) :
    ∀ (faqs before : List FAQ), faqs.length = scores.length →
      optionsOf (before ++ faqs) (closeMatchesFrom before.length scores) =
        .ok (((faqs.zip scores).filter (fun pair => decide (pair.2 > 55 / 100))).map
          (fun pair => pair.1.question)) := by
  induction scores with
  | nil =>
    intro faqs before hlen
    simp [closeMatchesFrom, optionsOf]
  | cons score rest ih =>
    intro faqs before hlen
    cases faqs with
    | nil => simp at hlen
    | cons faq others =>
      have hlen2 : others.length = rest.length := by simpa using hlen
      have hstep := ih others (before ++ [faq]) hlen2
      rw [List.append_assoc, List.singleton_append, List.length_append, List.length_singleton]
        at hstep
      rw [closeMatchesFrom]
      by_cases h : score > 55 / 100
      · have hget : (before ++ faq :: others).get? before.length = some faq := by
          rw [List.get?_eq_getElem?, List.getElem?_append_right (le_refl _)]
          simp
        simp only [h, if_true, optionsOf, hget, hstep, List.zip_cons_cons, List.filter_cons,
          decide_True, List.map_cons]
      · simp only [h, if_false, hstep, List.zip_cons_cons, List.filter_cons, decide_False]
        rfl

end Cli

namespace Cli

theorem lt_limit_iff {scores : List ℚ} {m : ℚ} (hm : m ∈ scores) (hmax : ∀ s ∈ scores, s ≤ m) :
    m < 80 / 100 ↔ ∀ s ∈ scores, s < 80 / 100 :=
  ⟨fun h s hs => lt_of_le_of_lt (hmax s hs) h, fun h => h m hm⟩

theorem processQuestion_clarifies (faqs : List FAQ)
    (formatter : String → Except Js.JsError (List String)) (userInput : String)
    (scores : List ℚ) (hlen : faqs.length = scores.length)
    (hcond : 2 ≤ (scores.filter (fun score => decide (score > 55 / 100))).length ∧
      ∀ s ∈ scores, s < 80 / 100) :
    processQuestion faqs formatter userInput scores =
      .ok (.clarification "I found multiple related questions. Which one do you mean?"
        (((faqs.zip scores).filter (fun pair => decide (pair.2 > 55 / 100))).map
          (fun pair => pair.1.question))) := by
  have hne : scores ≠ [] := by
    intro h
    rw [h] at hcond
    simp at hcond
  obtain ⟨m, hm, hmem, hmax⟩ := mathMax_spec hne
  have hbelow : m < 80 / 100 := (lt_limit_iff hmem hmax).mpr hcond.2
  have hcount : (closeMatchesFrom 0 scores).length > 1 := by
    rw [length_closeMatchesFrom]
    exact hcond.1
  have hoptions := optionsOf_closeMatchesFrom scores faqs [] hlen
  rw [List.nil_append, List.length_nil] at hoptions
  simp only [processQuestion, findRelevantFAQ, hm, hbelow, hcount, decide_True, Bool.and_self,
    if_true, hoptions]

theorem processQuestion_answers (faqs : List FAQ)
    (formatter : String → Except Js.JsError (List String)) (userInput : String)
    (scores : List ℚ) (hne : scores ≠ []) (hlen : faqs.length = scores.length)
    (hcond : ¬ (2 ≤ (scores.filter (fun score => decide (score > 55 / 100))).length ∧
      ∀ s ∈ scores, s < 80 / 100)) :
    ∃ index best m, scores.get? index = some m ∧ (∀ s ∈ scores, s ≤ m) ∧
      (∀ j, j < index → scores.get? j ≠ some m) ∧ faqs.get? index = some best ∧
      processQuestion faqs formatter userInput scores =
        match formatAnswer formatter userInput best.answer with
        | .error e => .error e
        | .ok final => .ok (.answer final) := by
  obtain ⟨m, hm, hmem, hmax⟩ := mathMax_spec hne
  obtain ⟨k, hk, hidx, hget, hfirst⟩ := indexOfFrom_of_mem hmem 0
  have hkf : k < faqs.length := by omega
  refine ⟨k, faqs.get ⟨k, hkf⟩, m, hget, hmax, hfirst, List.get?_eq_get hkf, ?_⟩
  have hflag : (decide ((closeMatchesFrom 0 scores).length > 1) &&
      decide (m < 80 / 100)) = false := by
    rw [length_closeMatchesFrom, Bool.and_eq_false_iff, decide_eq_false_iff_not,
      decide_eq_false_iff_not, lt_limit_iff hmem hmax]
    by_cases h1 : 2 ≤ (scores.filter (fun score => decide (score > 55 / 100))).length
    · exact Or.inr (fun h2 => hcond ⟨h1, h2⟩)
    · exact Or.inl (by omega)
  have hentry : entryAt faqs (indexOfFrom m 0 scores) = some (faqs.get ⟨k, hkf⟩) := by
    rw [hidx]
    simp only [entryAt, Nat.zero_add]
    rw [if_neg (by omega)]
    simp only [Int.toNat_ofNat]
    exact List.get?_eq_get hkf
  simp only [processQuestion, findRelevantFAQ, hm, hflag, Bool.false_eq_true, if_false, hentry]

end Cli

/-- C13 as stated fails, in both directions. With the scores 0.75 and 0.6 `bot.js` asks
for clarification (two scores above 0.55, maximum below 0.80) while the policy of
section 4.5 answers (top score at least 0.7); with the scores 0.6 and 0.45 `bot.js`
answers (one score above 0.55) while the policy asks for clarification (top below 0.7,
second above 0.4). -/
theorem Cli.processQuestion_differs_from_policy :
    (Cli.asksClarification (Cli.processQuestion [trackOrderFAQ, changeOrderFAQ]
        Cli.echoFormatter "order" [3 / 4, 3 / 5]) = true ∧
      Cli.policyClarifies [3 / 4, 3 / 5] = false) ∧
    (Cli.asksClarification (Cli.processQuestion [trackOrderFAQ, changeOrderFAQ]
        Cli.echoFormatter "order" [3 / 5, 9 / 20]) = false ∧
      Cli.policyClarifies [3 / 5, 9 / 20] = true) ∧
    ¬ (∀ (faqs : List FAQ) (formatter : String → Except Js.JsError (List String))
        (userInput : String) (scores : List ℚ),
        scores ≠ [] → faqs.length = scores.length →
        (Cli.asksClarification (Cli.processQuestion faqs formatter userInput scores) = true ↔
          Cli.policyClarifies scores = true)) := by
  have h1 : Cli.asksClarification (Cli.processQuestion [trackOrderFAQ, changeOrderFAQ]
      Cli.echoFormatter "order" [3 / 4, 3 / 5]) = true := by decide!
  have h2 : Cli.policyClarifies [3 / 4, 3 / 5] = false := by decide!
  refine ⟨⟨h1, h2⟩, ⟨by decide!, by decide!⟩, ?_⟩
  intro h
  have h3 := (h [trackOrderFAQ, changeOrderFAQ] Cli.echoFormatter "order" [3 / 4, 3 / 5]
    (List.cons_ne_nil _ _) rfl).mp h1
  rw [h2] at h3
  exact Bool.false_ne_true h3

/-- C13, amended: for a non-empty list of scores, one per FAQ entry, `processQuestion`
of `bot.js` asks for clarification exactly when at least two scores are above 0.55 and
every score (so the maximum) is below 0.80, and then lists the questions of the
entries scoring above 0.55, in FAQ order; otherwise it answers with the formatted
answer of the first entry that has the highest score. -/
theorem Cli.processQuestion_decision (faqs : List FAQ)
    (formatter : String → Except Js.JsError (List String)) (userInput : String)
    (scores : List ℚ) (hne : scores ≠ []) (hlen : faqs.length = scores.length) :
    (Cli.asksClarification (Cli.processQuestion faqs formatter userInput scores) = true ↔
      2 ≤ (scores.filter (fun score => decide (score > 55 / 100))).length ∧
        ∀ s ∈ scores, s < 80 / 100) ∧
    (2 ≤ (scores.filter (fun score => decide (score > 55 / 100))).length ∧
        (∀ s ∈ scores, s < 80 / 100) →
      Cli.processQuestion faqs formatter userInput scores =
        .ok (.clarification "I found multiple related questions. Which one do you mean?"
          (((faqs.zip scores).filter (fun pair => decide (pair.2 > 55 / 100))).map
            (fun pair => pair.1.question)))) ∧
    (¬ (2 ≤ (scores.filter (fun score => decide (score > 55 / 100))).length ∧
        ∀ s ∈ scores, s < 80 / 100) →
      ∃ index best m, scores.get? index = some m ∧ (∀ s ∈ scores, s ≤ m) ∧
        (∀ j, j < index → scores.get? j ≠ some m) ∧ faqs.get? index = some best ∧
        Cli.processQuestion faqs formatter userInput scores =
          match Cli.formatAnswer formatter userInput best.answer with
          | .error e => .error e
          | .ok final => .ok (.answer final)) := by
  refine ⟨?_, Cli.processQuestion_clarifies faqs formatter userInput scores hlen,
    Cli.processQuestion_answers faqs formatter userInput scores hne hlen⟩
  constructor
  · intro hasks
    by_contra hcond
    obtain ⟨index, best, m, -, -, -, -, hproc⟩ :=
      Cli.processQuestion_answers faqs formatter userInput scores hne hlen hcond
    rw [hproc] at hasks
    cases hformat : Cli.formatAnswer formatter userInput best.answer with
    | error e =>
      rw [hformat] at hasks
      exact Bool.false_ne_true hasks
    | ok final =>
      rw [hformat] at hasks
      exact Bool.false_ne_true hasks
  · intro hcond
    rw [Cli.processQuestion_clarifies faqs formatter userInput scores hlen hcond]
    rfl

/-- C13, amended, at a concrete input: two entries with the scores 0.75 and 0.6. -/
theorem Cli.processQuestion_decision_witness :
    (([3 / 4, 3 / 5] : List ℚ) ≠ [] ∧
      [trackOrderFAQ, changeOrderFAQ].length = ([3 / 4, 3 / 5] : List ℚ).length) ∧
    (Cli.asksClarification (Cli.processQuestion [trackOrderFAQ, changeOrderFAQ]
        Cli.echoFormatter "order" [3 / 4, 3 / 5]) = true ↔
      2 ≤ (([3 / 4, 3 / 5] : List ℚ).filter (fun score => decide (score > 55 / 100))).length ∧
        ∀ s ∈ ([3 / 4, 3 / 5] : List ℚ), s < 80 / 100) :=
  ⟨⟨List.cons_ne_nil _ _, rfl⟩,
    (Cli.processQuestion_decision [trackOrderFAQ, changeOrderFAQ] Cli.echoFormatter "order"
      [3 / 4, 3 / 5] (List.cons_ne_nil _ _) rfl).1⟩
